import Mathlib

/-!
Verification development for the repository's spec-to-figure compiler
(`pydantic_viz_spec.py` / `viz_engine.py`): a strictly validated declarative
chart specification (VizSpec) is compiled against a tabular data frame into
renderable figure primitives (traces + layout) plus a render config payload.

The definitions below are a shallow embedding of that source translated to
Lean, section by section:
  * cell values and data frames (pandas `DataFrame` restricted to the
    operations the engine uses: column access, `groupby`, `duplicated`,
    `pivot`, `to_datetime` coercion, `.copy()`);
  * the pydantic schema (`pydantic_viz_spec.py`): enums, nested models,
    field validators, the two root validators, field defaults;
  * the engine (`viz_engine.py`): `parse_viz_spec`, `compile_figure`,
    `compile_payload` and their `_`-prefixed helpers.

Library semantics embedded here (documented at each definition):
  * `df.groupby(col)` uses pandas' default `sort=True`: groups are produced
    in ascending order of the group keys, each group keeping the original
    relative row order;
  * `df.pivot` (implemented in pandas via `set_index(...).unstack(...)`)
    returns its row index and columns as the sorted unique label values;
  * pydantic v1 `BaseModel.parse_raw` wraps a JSON decode failure in a
    `ValidationError` (`load_str_bytes` errors are re-raised as
    `ValidationError([ErrorWrapper(e, loc=ROOT_KEY)], cls)`), so malformed
    JSON surfaces as a validation error, not a plain exception;
  * `json.dumps` raises `TypeError` on values that are not JSON
    representable (e.g. datetime values produced by `pd.to_datetime`);
  * Python truthiness: `None`, `""` and `[]` are falsy in `if`-conditions.
-/

namespace VizEng

/-! ## Cell values

Table cells are modelled as strings (the engine never computes with cell
contents, it only moves them around, groups and compares them) plus a
datetime variant produced by the `pd.to_datetime` coercion step.  A
`vDate` value is what the spec calls a "raw native date type that was not
converted": it is not representable in JSON (`json.dumps` raises
`TypeError` on it). -/

inductive Value where
  | vStr (s : String)
  | vDate (s : String)
deriving DecidableEq, Repr, Inhabited

/-- Sort key for cell values: a tag followed by the character codes.  pandas
raises on comparisons between incompatible types, so only frames whose
grouped/pivoted columns are of one kind are modelled faithfully; on a
single-kind column this order coincides with the pandas sort order
(lexicographic for strings). -/
def Value.skey : Value → List Nat
  | .vStr s => 0 :: s.data.map Char.toNat
  | .vDate s => 1 :: s.data.map Char.toNat

/-- Lexicographic order on lists of naturals (shorter prefix first), used as
the comparison backing the pandas sorts in `groupby` and `pivot`. -/
def natLexLe : List Nat → List Nat → Bool
  | [], _ => true
  | _ :: _, [] => false
  | a :: as, b :: bs => if a = b then natLexLe as bs else decide (a ≤ b)

theorem natLexLe_total : ∀ as bs : List Nat, natLexLe as bs = true ∨ natLexLe bs as = true
  | [], _ => Or.inl rfl
  | _ :: _, [] => Or.inr rfl
  | a :: as, b :: bs => by
    by_cases hab : a = b
    · subst hab
      simpa [natLexLe] using natLexLe_total as bs
    · have hba : b ≠ a := fun h => hab h.symm
      rcases Nat.le_total a b with h | h
      · exact Or.inl (by simp [natLexLe, hab, h])
      · exact Or.inr (by simp [natLexLe, hba, h])

theorem natLexLe_trans : ∀ as bs cs : List Nat,
    natLexLe as bs = true → natLexLe bs cs = true → natLexLe as cs = true
  | [], _, _, _, _ => rfl
  | _ :: _, [], _, h, _ => by simp [natLexLe] at h
  | _ :: _, _ :: _, [], _, h => by simp [natLexLe] at h
  | a :: as, b :: bs, c :: cs, h₁, h₂ => by
    by_cases hab : a = b <;> by_cases hbc : b = c
    · subst hab; subst hbc
      simp only [natLexLe, if_pos rfl] at h₁ h₂ ⊢
      exact natLexLe_trans as bs cs h₁ h₂
    · subst hab
      simpa [natLexLe, hbc] using h₂
    · subst hbc
      simpa [natLexLe, hab] using h₁
    · simp only [natLexLe, if_neg hab] at h₁
      simp only [natLexLe, if_neg hbc] at h₂
      have hle : a ≤ c := Nat.le_trans (of_decide_eq_true h₁) (of_decide_eq_true h₂)
      by_cases hac : a = c
      · subst hac
        exact absurd (Nat.le_antisymm (of_decide_eq_true h₁) (of_decide_eq_true h₂)) hab
      · simp [natLexLe, hac, hle]

/-- Boolean comparison on cell values (pull-back of `natLexLe` along
`Value.skey`). -/
def Value.le (a b : Value) : Bool := natLexLe a.skey b.skey

/-- The comparison as a relation, for the sortedness statements. -/
def vleP (a b : Value) : Prop := Value.le a b = true

instance : DecidableRel vleP := fun a b => inferInstanceAs (Decidable (_ = true))

instance : IsTotal Value vleP :=
  ⟨fun a b => natLexLe_total a.skey b.skey⟩

instance : IsTrans Value vleP :=
  ⟨fun a b c => natLexLe_trans a.skey b.skey c.skey⟩

/-- Distinct values of a list in first-occurrence order (the order the spec
talks about when it says "preserving first-occurrence order of each distinct
key as encountered scanning rows top-to-bottom"). -/
def firstUniquesAux (seen : List Value) : List Value → List Value
  | [] => []
  | a :: l => if a ∈ seen then firstUniquesAux seen l
              else a :: firstUniquesAux (a :: seen) l

def firstUniques (l : List Value) : List Value := firstUniquesAux [] l

/-- Ascending sort of cell values; pandas `groupby(sort=True)` and
`pivot`/`unstack` present their keys in this order. -/
def sortVals (l : List Value) : List Value := List.insertionSort vleP l

theorem sortVals_perm (l : List Value) : (sortVals l).Perm l :=
  List.perm_insertionSort vleP l

theorem sortVals_sorted (l : List Value) : List.Sorted vleP (sortVals l) :=
  List.sorted_insertionSort vleP l

theorem sortVals_length (l : List Value) : (sortVals l).length = l.length :=
  (sortVals_perm l).length_eq

/-! ## Data frames

A frame is a list of column names and row-major data.  The engine only ever
reads whole columns, so access is by column name; `getD` totalises ragged or
missing access, and the well-formedness predicate below records the
rectangular shape every pandas frame actually has (pandas raises `KeyError`
on a genuinely missing column — theorems about frame contents therefore
carry explicit column-membership hypotheses). -/

structure DataFrame where
  cols : List String
  rows : List (List Value)
deriving DecidableEq, Repr, Inhabited

/-- Rectangular shape: every row has one entry per column. -/
def DataFrame.WF (df : DataFrame) : Prop :=
  ∀ r ∈ df.rows, r.length = df.cols.length

def DataFrame.colIdx (df : DataFrame) (c : String) : Nat :=
  df.cols.indexOf c

/-- Value of row `r` in column `c` (pandas `row[c]`). -/
def DataFrame.cell (df : DataFrame) (r : List Value) (c : String) : Value :=
  r.getD (df.colIdx c) default

/-- Whole column access (pandas `df[c]`). -/
def DataFrame.col (df : DataFrame) (c : String) : List Value :=
  df.rows.map (fun r => df.cell r c)

theorem DataFrame.col_length (df : DataFrame) (c : String) :
    (df.col c).length = df.rows.length := by
  simp [DataFrame.col]

/-! ## Error taxonomy

The engine defines `SpecParseError`, `SpecValidationError` and
`CompileError` (all subclasses of `VizEngineError`); additionally plain
Python `TypeError` / `KeyError` can escape the engine (from `json.dumps`,
`None` subscription, and `df[col]` on a missing column) — those are
modelled by dedicated constructors since they are observably different
error classes for a caller.  `CompileError` in the source carries a plain
message string; each message site gets one structured constructor whose
doc comment quotes the exact source string. -/

structure FieldErr where
  path : List String
  msg : String
deriving DecidableEq, Repr

inductive CompileMsg where
  /-- source: `f"columns not found in dataframe: {missing}"` -/
  | missingColumns (missing : List String)
  /-- source: `"heatmap long-form requires unique (x,y) pairs; pre-aggregate upstream."` -/
  | heatmapDuplicatePairs
  /-- source: `"pie requires x (labels) and y (values)"` -/
  | pieRequiresXY
  /-- source: `f"trace count {count} exceeds limit {max_traces}"` -/
  | tooManyTraces (count limit : Nat)
  /-- source: `f"Unsupported chart type: {chart.type}"` -/
  | unsupportedChartType
deriving DecidableEq, Repr

inductive VizError where
  | specParseError (msg : String)
  | specValidationError (errs : List FieldErr)
  | compileError (msg : CompileMsg)
  /-- a built-in Python `TypeError` escaping uncaught (e.g. from
  `json.dumps` on a non-serializable payload, or `None[0]`) -/
  | typeError (msg : String)
  /-- a built-in Python/pandas `KeyError` from subscripting a missing
  column -/
  | keyError (key : String)
  /-- a built-in Python `IndexError` (e.g. `[][0]`) -/
  | indexError (msg : String)
deriving DecidableEq, Repr

/-! ## Schema enums (`pydantic_viz_spec.py`) -/

inductive ChartType where
  | line | scatter | bar | histogram | box | heatmap | pie | area
deriving DecidableEq, Repr

inductive Mode where
  | lines | markers | lines_markers
deriving DecidableEq, Repr

inductive Orientation where
  | v | h
deriving DecidableEq, Repr

inductive BarMode where
  | group | stack | relative
deriving DecidableEq, Repr

inductive HistNorm where
  | none | percent | probability | density
deriving DecidableEq, Repr

inductive HoverMode where
  | x | y | closest | x_unified | y_unified
deriving DecidableEq, Repr

inductive LineShape where
  | linear | spline
deriving DecidableEq, Repr

/-! ## Color validation -/

def isHexDigitChar (c : Char) : Bool :=
  (48 ≤ c.toNat && c.toNat ≤ 57) || (97 ≤ c.toNat && c.toNat ≤ 102) ||
    (65 ≤ c.toNat && c.toNat ≤ 70)

/-- The regex `^#(?:[0-9a-fA-F]{6}|[0-9a-fA-F]{8})$` (`_HEX` in the
source). -/
def hexMatch (s : String) : Bool :=
  match s.data with
  | '#' :: rest =>
      (rest.length = 6 || rest.length = 8) && rest.all isHexDigitChar
  | _ => false

/-- source: `return bool(_HEX.match(s)) or isinstance(s, str)` — the second
disjunct is `isinstance(s, str)`, which is identically `True` for the
(string-typed) values this validator receives, so the hex test is
subsumed. -/
def _valid_color (s : String) : Bool :=
  hexMatch s || true

/-! ## Nested models (validated form) -/

structure EncodingsSpec where
  marker_size : Option Int
  opacity : Option Rat
  line_shape : Option LineShape
deriving DecidableEq, Repr

/-- source model `SeriesSpec`; the field is called `by` in the source, a
reserved word in Lean, hence `by_`. -/
structure SeriesSpec where
  by_ : Option String
deriving DecidableEq, Repr

structure AxisSpec where
  y2_for : Option (List String)
  area_stackgroup : Option String
deriving DecidableEq, Repr

/-- Python `dict`s are modelled as association lists with first-match
lookup (dict keys are unique, so first-match agrees with dict lookup). -/
structure LabelsSpec where
  y : Option (List (String × String))
  series : Option (List (String × String))
deriving DecidableEq, Repr

structure ColorsSpec where
  color_map : Option (List (String × String))
deriving DecidableEq, Repr

structure ChartSpec where
  type : ChartType
  mode : Option Mode
  orientation : Option Orientation
  barmode : Option BarMode
  histnorm : Option HistNorm
deriving DecidableEq, Repr

/-- The `y` field accepts a single column name or a list of names
(`Optional[Union[str, List[str]]]`). -/
def YField := String ⊕ List String
deriving instance DecidableEq, Repr for YField

structure DataSpec where
  frame_name : Option String
  x : Option String
  y : Option YField
  z : Option String
  text : Option String
  name : Option String
  series : Option SeriesSpec
  axis : Option AxisSpec
  encodings : Option EncodingsSpec
  labels : Option LabelsSpec
  colors : Option ColorsSpec
deriving DecidableEq, Repr

structure LayoutSpec where
  title : Option String
  xaxis_title : Option String
  yaxis_title : Option String
  yaxis2_title : Option String
  hovermode : Option HoverMode
  template : Option String
  colorway : Option (List String)
  legend : Option (List (String × String))
  height : Option Int
  width : Option Int
deriving DecidableEq, Repr

structure PlotlyJSConfig where
  responsive : Bool
  displayModeBar : Bool
  displaylogo : Bool
  scrollZoom : Bool
  modeBarButtonsToRemove : Option (List String)
deriving DecidableEq, Repr

structure VizSpec where
  version : String
  chart : ChartSpec
  data : DataSpec
  layout : Option LayoutSpec
  plotly_config : Option PlotlyJSConfig
deriving DecidableEq, Repr

/-! ## Raw (pre-validation) input model

pydantic distinguishes an absent field (the declared default applies) from
an explicit `null` (`None` is stored when the annotation is `Optional`);
`RawOpt` records that three-way distinction for the fields whose declared
default is not `None` (`version`, `marker_size`, `opacity`, `height`, the
four `PlotlyJSConfig` booleans).  Fields whose default is `None` need only
`Option`.  Structural typing (wrong JSON types, unknown enum members) is
absorbed by this typed raw model: a raw value that exists here is
structurally well-typed, which is exactly the input class whose remaining
failures are range checks, field validators and the root validators. -/

inductive RawOpt (α : Type) where
  | absent
  | null
  | val (a : α)
deriving DecidableEq, Repr

/-- Serialize an `Optional` field value: pydantic v1 `.json()` writes `null`
for `None` and the value otherwise (never omits the key). -/
def RawOpt.ofOpt {α : Type} : Option α → RawOpt α
  | none => .null
  | some v => .val v

structure RawEncodings where
  marker_size : RawOpt Int
  opacity : RawOpt Rat
  line_shape : Option LineShape
deriving DecidableEq, Repr

structure RawLayout where
  title : Option String
  xaxis_title : Option String
  yaxis_title : Option String
  yaxis2_title : Option String
  hovermode : Option HoverMode
  template : Option String
  colorway : Option (List String)
  legend : Option (List (String × String))
  height : RawOpt Int
  width : Option Int
deriving DecidableEq, Repr

structure RawPlotlyJSConfig where
  responsive : RawOpt Bool
  displayModeBar : RawOpt Bool
  displaylogo : RawOpt Bool
  scrollZoom : RawOpt Bool
  modeBarButtonsToRemove : Option (List String)
deriving DecidableEq, Repr

structure RawDataSpec where
  frame_name : Option String
  x : Option String
  y : Option YField
  z : Option String
  text : Option String
  name : Option String
  series : Option SeriesSpec
  axis : Option AxisSpec
  encodings : Option RawEncodings
  labels : Option LabelsSpec
  colors : Option ColorsSpec
deriving DecidableEq, Repr

structure RawVizSpec where
  version : RawOpt String
  chart : ChartSpec
  data : RawDataSpec
  layout : Option RawLayout
  plotly_config : Option RawPlotlyJSConfig
deriving DecidableEq, Repr

/-! ## Python truthiness -/

/-- Truthiness of an optional string: `None` and `""` are falsy. -/
def optStrTruthy : Option String → Bool
  | none => false
  | some s => !s.isEmpty

/-- Truthiness of the `y` field: `None`, `""` and `[]` are falsy. -/
def yFieldTruthy : Option YField → Bool
  | none => false
  | some (.inl s) => !s.isEmpty
  | some (.inr l) => !l.isEmpty

/-- Truthiness of an optional list: `None` and `[]` are falsy. -/
def optListTruthy {α : Type} : Option (List α) → Bool
  | none => false
  | some l => !l.isEmpty

/-- The expression `data.series and data.series.by`: the group-by column if
the `series` model is present and its `by` field is truthy. -/
def DataSpec.seriesBy (d : DataSpec) : Option String :=
  match d.series with
  | none => none
  | some s =>
      match s.by_ with
      | none => none
      | some b => if b.isEmpty then none else some b

/-! ## Field validators and defaults -/

/-- Field validator `_unique_y_list` on `DataSpec.y`. -/
def validateYField : Option YField → Except FieldErr (Option YField)
  | some (.inr l) =>
      if l.isEmpty then
        .error ⟨["data", "y"], "y list cannot be empty"⟩
      else if l.Nodup then
        .ok (some (.inr l))
      else
        .error ⟨["data", "y"], "y list contains duplicates"⟩
  | v => .ok v

/-- Field validator `ColorsSpec._validate_colors`: reject the first entry
whose value fails `_valid_color` (vacuous, since `_valid_color` is
identically true, but embedded as written). -/
def validateColorMap : Option (List (String × String)) →
    Except FieldErr (Option (List (String × String)))
  | none => .ok none
  | some m =>
      match m.find? (fun kc => !_valid_color kc.2) with
      | some kc => .error ⟨["data", "colors", "color_map"],
          "Invalid color for key " ++ kc.1⟩
      | none => .ok (some m)

/-- Field validator `LayoutSpec._validate_colorway` (likewise vacuous). -/
def validateColorway : Option (List String) → Except FieldErr (Option (List String))
  | none => .ok none
  | some l =>
      match l.find? (fun c => !_valid_color c) with
      | some c => .error ⟨["layout", "colorway"], "Invalid color in colorway: " ++ c⟩
      | none => .ok (some l)

/-- Range-checked optional integer field with a non-`None` default, e.g.
`marker_size: Optional[int] = Field(6, ge=1, le=64)`. -/
def parseIntField (path : List String) (dflt lo hi : Int) :
    RawOpt Int → Except FieldErr (Option Int)
  | .absent => .ok (some dflt)
  | .null => .ok none
  | .val v =>
      if lo ≤ v ∧ v ≤ hi then .ok (some v)
      else .error ⟨path, "value out of range"⟩

/-- Range-checked optional integer field whose default is `None`, e.g.
`width: Optional[int] = Field(None, ge=200, le=4000)`. -/
def parseIntFieldNoDflt (path : List String) (lo hi : Int) :
    Option Int → Except FieldErr (Option Int)
  | none => .ok none
  | some v =>
      if lo ≤ v ∧ v ≤ hi then .ok (some v)
      else .error ⟨path, "value out of range"⟩

/-- Range-checked optional rational field with a non-`None` default
(`opacity: Optional[float] = Field(0.9, ge=0.0, le=1.0)`; Python floats are
modelled by rationals). -/
def parseRatField (path : List String) (dflt lo hi : Rat) :
    RawOpt Rat → Except FieldErr (Option Rat)
  | .absent => .ok (some dflt)
  | .null => .ok none
  | .val v =>
      if lo ≤ v ∧ v ≤ hi then .ok (some v)
      else .error ⟨path, "value out of range"⟩

/-- A required boolean with a default (`responsive: bool = True`): absent
uses the default, explicit `null` is rejected (`None` is not an allowed
value for a non-`Optional` field). -/
def parseBoolField (path : List String) (dflt : Bool) :
    RawOpt Bool → Except FieldErr Bool
  | .absent => .ok dflt
  | .null => .error ⟨path, "none is not an allowed value"⟩
  | .val b => .ok b

def parseEncodings (r : RawEncodings) : Except FieldErr EncodingsSpec :=
  match parseIntField ["data", "encodings", "marker_size"] 6 1 64 r.marker_size,
        parseRatField ["data", "encodings", "opacity"] (mkRat 9 10) 0 1 r.opacity with
  | .error e, _ => .error e
  | _, .error e => .error e
  | .ok ms, .ok op => .ok ⟨ms, op, r.line_shape⟩

def parseLayout (r : RawLayout) : Except FieldErr LayoutSpec :=
  match validateColorway r.colorway,
        parseIntField ["layout", "height"] 450 200 2000 r.height,
        parseIntFieldNoDflt ["layout", "width"] 200 4000 r.width with
  | .error e, _, _ => .error e
  | _, .error e, _ => .error e
  | _, _, .error e => .error e
  | .ok cw, .ok h, .ok w =>
      .ok ⟨r.title, r.xaxis_title, r.yaxis_title, r.yaxis2_title, r.hovermode,
           r.template, cw, r.legend, h, w⟩

def parsePlotlyConfig (r : RawPlotlyJSConfig) : Except FieldErr PlotlyJSConfig :=
  match parseBoolField ["plotly_config", "responsive"] true r.responsive,
        parseBoolField ["plotly_config", "displayModeBar"] true r.displayModeBar,
        parseBoolField ["plotly_config", "displaylogo"] false r.displaylogo,
        parseBoolField ["plotly_config", "scrollZoom"] false r.scrollZoom with
  | .error e, _, _, _ => .error e
  | _, .error e, _, _ => .error e
  | _, _, .error e, _ => .error e
  | _, _, _, .error e => .error e
  | .ok a, .ok b, .ok c, .ok d => .ok ⟨a, b, c, d, r.modeBarButtonsToRemove⟩

/-- `version: str = Field("1.0", const=True)`. -/
def parseVersion : RawOpt String → Except FieldErr String
  | .absent => .ok "1.0"
  | .null => .error ⟨["version"], "none is not an allowed value"⟩
  | .val s =>
      if s = "1.0" then .ok s
      else .error ⟨["version"], "unexpected value; permitted: 1.0"⟩

def parseEncodingsOpt : Option RawEncodings → Except FieldErr (Option EncodingsSpec)
  | none => .ok none
  | some e => (parseEncodings e).map some

def parseDataSpec (r : RawDataSpec) : Except FieldErr DataSpec :=
  match validateYField r.y,
        validateColorMap (match r.colors with
          | none => none
          | some c => c.color_map),
        parseEncodingsOpt r.encodings with
  | .error e, _, _ => .error e
  | _, .error e, _ => .error e
  | _, _, .error e => .error e
  | .ok y, .ok cm, .ok enc =>
      .ok ⟨r.frame_name, r.x, y, r.z, r.text, r.name, r.series, r.axis, enc,
           r.labels,
           match r.colors with
           | none => none
           | some _ => some ⟨cm⟩⟩

/-- Root validator `ChartSpec._defaults_and_semantics`: default the mode for
line/area, keep `orientation` only for bar, keep `histnorm` only for
histogram.  It never fails. -/
def ChartSpec._defaults_and_semantics (c : ChartSpec) : ChartSpec :=
  { c with
    mode := if (c.type = .line ∨ c.type = .area) ∧ c.mode = none
            then some .lines else c.mode
    orientation := if c.type = .bar then c.orientation else none
    histnorm := if c.type = .histogram then c.histnorm else none }

/-! ## Root validator `VizSpec._semantic_checks` and `parse_viz_spec` -/

/-- Root validator `VizSpec._semantic_checks` (`pydantic_viz_spec.py`):
heatmap needs x, y, z non-`None`; `y2_for ⊆ y` when `y` is a list;
list-`y` and `series.by` are mutually exclusive; histogram needs a truthy
`x` or `y`; area must not be markers-only.  Checks run in source order and
the first failure is reported. -/
def VizSpec._semantic_checks (m : VizSpec) : Except FieldErr Unit :=
  let chart := m.chart
  let data := m.data
  -- `if chart and chart.type == ChartType.heatmap: missing = [k for k in
  -- ("x","y","z") if getattr(data, k) is None]` — a `None` test, not a
  -- truthiness test
  if chart.type = .heatmap ∧
      (data.x.isNone ∨ data.y.isNone ∨ data.z.isNone) then
    .error ⟨["__root__"], "heatmap requires x, y, z; missing some"⟩
  -- `if data and data.axis and data.axis.y2_for and isinstance(data.y, list)`
  else if (match data.axis, data.y with
    | some ax, some (.inr ys) =>
        optListTruthy ax.y2_for &&
          !((ax.y2_for.getD []).filter (fun c => !ys.contains c)).isEmpty
    | _, _ => false) then
    .error ⟨["__root__"], "y2_for contains columns not in y"⟩
  -- `if data and isinstance(data.y, list) and data.series and data.series.by`
  else if (match data.y with
    | some (.inr _) => (data.seriesBy).isSome
    | _ => false) then
    .error ⟨["__root__"], "cannot use list(y) together with series.by; choose one strategy"⟩
  -- `if chart and chart.type == ChartType.histogram: if not (data and (data.x or data.y))`
  else if chart.type = .histogram ∧
      !(optStrTruthy data.x || yFieldTruthy data.y) then
    .error ⟨["__root__"], "histogram requires one of x or y"⟩
  -- `if chart and chart.type == ChartType.area and chart.mode == Mode.markers`
  else if chart.type = .area ∧ chart.mode = some .markers then
    .error ⟨["__root__"], "area charts require lines or lines+markers mode"⟩
  else
    .ok ()

/-- Whole-model validation: sub-model/field validation in declaration
order, then the root validator — the pydantic pipeline run by
`VizSpec.parse_obj` / `VizSpec.parse_raw` on structurally well-typed
input. -/
def parseLayoutOpt : Option RawLayout → Except FieldErr (Option LayoutSpec)
  | none => .ok none
  | some l => (parseLayout l).map some

def parsePlotlyConfigOpt : Option RawPlotlyJSConfig → Except FieldErr (Option PlotlyJSConfig)
  | none => .ok none
  | some c => (parsePlotlyConfig c).map some

def parseRawSpec (r : RawVizSpec) : Except VizError VizSpec :=
  match parseVersion r.version, parseDataSpec r.data, parseLayoutOpt r.layout,
        parsePlotlyConfigOpt r.plotly_config with
  | .error e, _, _, _ => .error (.specValidationError [e])
  | _, .error e, _, _ => .error (.specValidationError [e])
  | _, _, .error e, _ => .error (.specValidationError [e])
  | _, _, _, .error e => .error (.specValidationError [e])
  | .ok ver, .ok data, .ok layout, .ok cfg =>
      let m : VizSpec := ⟨ver, ChartSpec._defaults_and_semantics r.chart, data, layout, cfg⟩
      match m._semantic_checks with
      | .ok _ => .ok m
      | .error e => .error (.specValidationError [e])

/-- Input to `parse_viz_spec`: a JSON string, a structured object, or an
already-parsed model.  A JSON string is modelled by its decode result:
`none` stands for a string that is not well-formed JSON. -/
inductive SpecInput where
  | jsonStr (decoded : Option RawVizSpec)
  | obj (r : RawVizSpec)
  | model (m : VizSpec)

/-- source `parse_viz_spec` (`viz_engine.py`):
`VizSpec` instances pass through; strings go through `VizSpec.parse_raw`,
dicts through `VizSpec.parse_obj`; `ValidationError` is re-raised as
`SpecValidationError`, any other exception as `SpecParseError`.
pydantic v1 `parse_raw` wraps a JSON decode failure (`load_str_bytes`
raising `ValueError`) in `ValidationError([ErrorWrapper(e, loc=ROOT_KEY)])`,
so a malformed JSON string also surfaces as `SpecValidationError` here —
the `except Exception` / `SpecParseError` arm is unreachable on string and
dict inputs. -/
def parse_viz_spec : SpecInput → Except VizError VizSpec
  | .model m => .ok m
  | .jsonStr none =>
      .error (.specValidationError [⟨["__root__"], "Invalid JSON (value_error.jsondecode)"⟩])
  | .jsonStr (some r) => parseRawSpec r
  | .obj r => parseRawSpec r

/-! ## Canonical serialized form

`model.json()` on a validated spec writes every field explicitly (pydantic
v1 includes `null` for `None`-valued fields by default); decoding that text
yields the raw structure below.  Round-tripping the typed model through
JSON is injective on validated specs, so re-parsing the canonical
serialized form is `parseRawSpec (m.toRaw)`. -/

def EncodingsSpec.toRaw (e : EncodingsSpec) : RawEncodings :=
  ⟨.ofOpt e.marker_size, .ofOpt e.opacity, e.line_shape⟩

def LayoutSpec.toRaw (l : LayoutSpec) : RawLayout :=
  ⟨l.title, l.xaxis_title, l.yaxis_title, l.yaxis2_title, l.hovermode,
   l.template, l.colorway, l.legend, .ofOpt l.height, l.width⟩

def PlotlyJSConfig.toRaw (c : PlotlyJSConfig) : RawPlotlyJSConfig :=
  ⟨.val c.responsive, .val c.displayModeBar, .val c.displaylogo,
   .val c.scrollZoom, c.modeBarButtonsToRemove⟩

def DataSpec.toRaw (d : DataSpec) : RawDataSpec :=
  ⟨d.frame_name, d.x, d.y, d.z, d.text, d.name, d.series, d.axis,
   d.encodings.map EncodingsSpec.toRaw, d.labels, d.colors⟩

def VizSpec.toRaw (m : VizSpec) : RawVizSpec :=
  ⟨.val m.version, m.chart, m.data.toRaw, m.layout.map LayoutSpec.toRaw,
   m.plotly_config.map PlotlyJSConfig.toRaw⟩

/-! ## Enum wire values (`.value` in the source) -/

def Mode.toStr : Mode → String
  | .lines => "lines" | .markers => "markers" | .lines_markers => "lines+markers"

def Orientation.toStr : Orientation → String
  | .v => "v" | .h => "h"

def BarMode.toStr : BarMode → String
  | .group => "group" | .stack => "stack" | .relative => "relative"

def HistNorm.toStr : HistNorm → String
  | .none => "none" | .percent => "percent" | .probability => "probability"
  | .density => "density"

def HoverMode.toStr : HoverMode → String
  | .x => "x" | .y => "y" | .closest => "closest"
  | .x_unified => "x unified" | .y_unified => "y unified"

def LineShape.toStr : LineShape → String
  | .linear => "linear" | .spline => "spline"

/-- Python `str(value)` on a cell (`str()` of a Timestamp renders its
date text; the original text is kept in the `vDate` payload). -/
def Value.toStr : Value → String
  | .vStr s => s
  | .vDate s => s

/-! ## pandas operations used by the engine -/

/-- Concrete stand-in for "the string parses as a date" in
`pd.to_datetime`: the shape `DDDD-DD-DD`.  `pd.to_datetime` accepts far
more formats; any decidable recognizer works for the embedding, the engine
only branches on whether the whole column parses. -/
def looksLikeDate (s : String) : Bool :=
  match s.data with
  | [a, b, c, d, '-', e, f, '-', g, h] => [a, b, c, d, e, f, g, h].all Char.isDigit
  | _ => false

def Value.parsesAsDate : Value → Bool
  | .vStr s => looksLikeDate s
  | .vDate _ => true

def Value.toDateValue : Value → Value
  | .vStr s => .vDate s
  | .vDate s => .vDate s

/-- dtype test `np.issubdtype(df[x].dtype, np.datetime64)`: a column is of
datetime dtype when all its cells are datetime values. -/
def isDatetimeDtype (col : List Value) : Bool :=
  col.all (fun v => match v with | .vDate _ => true | _ => false)

/-- the write `df[x] = pd.to_datetime(df[x], errors="ignore")` on the
private copy: with `errors="ignore"` pandas converts the column only when
every value parses, otherwise it returns the input unchanged. -/
def DataFrame.coerceFrame (df : DataFrame) (xc : String) : DataFrame :=
  let i := df.colIdx xc
  if (df.col xc).all Value.parsesAsDate then
    ⟨df.cols, df.rows.map (fun r => r.set i ((r.getD i default).toDateValue))⟩
  else df

/-- the x-coercion block at the top of `_add_scatter_family`:
`if x and not np.issubdtype(df[x].dtype, np.datetime64): df = df.copy();
df[x] = pd.to_datetime(df[x], errors="ignore")` — the result is the local
working frame the rest of the builder reads (the caller's frame is
untouched; the store-level model below makes the copy explicit). -/
def scatterWorkingFrame (df : DataFrame) (x : Option String) : DataFrame :=
  match x with
  | some xc =>
      if !xc.isEmpty && !isDatetimeDtype (df.col xc) then df.coerceFrame xc
      else df
  | none => df

/-- pandas `df.groupby(c)` with the default `sort=True` and `dropna=True`:
the groups are produced in ascending order of the distinct keys of column
`c`, and each group keeps its rows in original relative order (cells have
no NaN in this model, so `dropna` never removes a key). -/
def seriesGroups (df : DataFrame) (c : String) : List (Value × DataFrame) :=
  (sortVals (firstUniques (df.col c))).map
    (fun k => (k, ⟨df.cols, df.rows.filter (fun r => decide (df.cell r c = k))⟩))

/-- the test `df.duplicated(subset=[x, y], keep=False).any()`: some row's
(x, y) pair occurs at least twice. -/
def hasDuplicatePairs (df : DataFrame) (xc yc : String) : Bool :=
  df.rows.any (fun r =>
    df.rows.countP (fun r2 =>
      decide (df.cell r2 xc = df.cell r xc) &&
      decide (df.cell r2 yc = df.cell r yc)) ≥ 2)

structure PivotResult where
  rowKeys : List Value
  colKeys : List Value
  matrix : List (List (Option Value))
deriving DecidableEq, Repr

/-- pandas `df.pivot(index=yc, columns=xc, values=zc)`: pandas implements
this as `set_index([yc, xc]).unstack(xc)`, whose row index and columns are
the sorted unique label values; a missing (row, column) combination is a
NaN hole, modelled `none`.  With duplicate (x, y) pairs pandas raises — the
engine checks `hasDuplicatePairs` first, and under that precondition
`find?` returns the unique matching row. -/
def DataFrame.pivot (df : DataFrame) (yc xc zc : String) : PivotResult :=
  let rks := sortVals (firstUniques (df.col yc))
  let cks := sortVals (firstUniques (df.col xc))
  ⟨rks, cks,
   rks.map (fun rk => cks.map (fun ck =>
     (df.rows.find? (fun r =>
        decide (df.cell r yc = rk) && decide (df.cell r xc = ck))).map
       (fun r => df.cell r zc)))⟩

/-- pandas `df[c]` by name, raising `KeyError` when the column is absent. -/
def DataFrame.colE (df : DataFrame) (c : String) : Except VizError (List Value) :=
  if df.cols.contains c then .ok (df.col c) else .error (.keyError c)

/-- pandas `df[c]` where `c` may be `None` (`df[None]` raises
`KeyError: None`). -/
def DataFrame.colOptE (df : DataFrame) : Option String → Except VizError (List Value)
  | none => .error (.keyError "None")
  | some c => df.colE c

/-- the guarded access pattern `df[c] if c else None` (truthiness guard:
both `None` and `""` yield `None`). -/
def DataFrame.colTruthyE (df : DataFrame) :
    Option String → Except VizError (Option (List Value))
  | none => pure none
  | some c => if c.isEmpty then pure none else (df.colE c).map some

/-! ## Trace objects

One flat record holds every field any of the six builders sets; an unset
field is `none` (an attribute plotly leaves at its default). -/

inductive TraceKind where
  | scatter | bar | histogram | box | heatmap | pie
deriving DecidableEq, Repr

/-- plotly trace attribute table: which trace classes carry a `marker` /
`line` attribute (the `hasattr(trace, "marker")` / `hasattr(trace, "line")`
tests in `_apply_common`). -/
def TraceKind.hasMarkerAttr : TraceKind → Bool
  | .scatter => true | .bar => true | .histogram => true
  | .box => true | .heatmap => false | .pie => true

def TraceKind.hasLineAttr : TraceKind → Bool
  | .scatter => true | .bar => false | .histogram => false
  | .box => true | .heatmap => false | .pie => false

structure Trace where
  kind : TraceKind
  name : Option String := none
  x : Option (List Value) := none
  y : Option (List Value) := none
  text : Option (List Value) := none
  mode : Option String := none
  fill : Option String := none
  stackgroup : Option String := none
  histnorm : Option String := none
  boxpoints : Option String := none
  z : Option (List (List (Option Value))) := none
  xlabels : Option (List String) := none
  ylabels : Option (List String) := none
  labels : Option (List Value) := none
  values : Option (List Value) := none
  yaxis : Option String := none
  opacity : Option Rat := none
  marker_size : Option Int := none
  marker_color : Option String := none
  line_shape : Option String := none
  line_color : Option String := none
deriving DecidableEq, Repr

/-! ## Naming, color and axis resolvers -/

/-- source `_label_y`: look the y column up in `labels.y`, falling back to
the raw column name; empty string when there is no column. -/
def _label_y (spec : VizSpec) (ycol : Option String) : String :=
  match ycol with
  | none => ""
  | some yc =>
      let labels := match spec.data.labels with
        | some lb => lb.y.getD []
        | none => []
      match labels.find? (fun kv => decide (kv.1 = yc)) with
      | some kv => kv.2
      | none => yc

/-- source `_label_series`: look the (stringified) series key up in
`labels.series`, falling back to the raw key; the `fallback` argument is
only used for a `None` key, which `groupby` never produces here. -/
def _label_series (spec : VizSpec) (key : Value) (_fallback : String) : String :=
  let labels := match spec.data.labels with
    | some lb => lb.series.getD []
    | none => []
  match labels.find? (fun kv => decide (kv.1 = key.toStr)) with
  | some kv => kv.2
  | none => key.toStr

/-- source `_apply_common` is decomposed into the four cosmetic updates
below (opacity, marker size, line shape from `encodings`; marker/line
color from `colors.color_map` keyed by `name_key`), each guarded by the
attribute table above. -/
def applyOpacity (tr : Trace) (e : EncodingsSpec) : Trace :=
  match e.opacity with
  | some q => { tr with opacity := some q }
  | none => tr

def applyMarkerSize (tr : Trace) (e : EncodingsSpec) : Trace :=
  match e.marker_size with
  | some ms => if tr.kind.hasMarkerAttr then { tr with marker_size := some ms } else tr
  | none => tr

def applyLineShape (tr : Trace) (e : EncodingsSpec) : Trace :=
  match e.line_shape with
  | some ls => if tr.kind.hasLineAttr then { tr with line_shape := some ls.toStr } else tr
  | none => tr

def applyColorBoth (tr : Trace) (c : String) : Trace :=
  let tr1 := if tr.kind.hasMarkerAttr then { tr with marker_color := some c } else tr
  if tr1.kind.hasLineAttr then { tr1 with line_color := some c } else tr1

def _apply_common (tr : Trace) (name_key : String) (spec : VizSpec) : Trace :=
  let tr1 := match spec.data.encodings with
    | none => tr
    | some e => applyLineShape (applyMarkerSize (applyOpacity tr e) e) e
  let colors := match spec.data.colors with
    | some c => c.color_map.getD []
    | none => []
  -- `if colors and name_key: col = colors.get(str(name_key)); if col:`
  if !colors.isEmpty && !name_key.isEmpty then
    match colors.find? (fun kv => decide (kv.1 = name_key)) with
    | some kv => if kv.2.isEmpty then tr1 else applyColorBoth tr1 kv.2
    | none => tr1
  else tr1

/-- source `_route_axis`: set `yaxis="y2"` iff `axis.y2_for` is truthy and
the trace's y column is among its entries (`None` is never a member). -/
def _route_axis (tr : Trace) (ycol : Option String) (spec : VizSpec) : Trace :=
  let y2f := match spec.data.axis with
    | some ax => ax.y2_for.getD []
    | none => []
  if !y2f.isEmpty && (match ycol with
      | some yc => y2f.contains yc
      | none => false) then
    { tr with yaxis := some "y2" }
  else tr

/-! ## Trace builders (`viz_engine.py`) -/

/-- the expression `data.y if isinstance(data.y, str) or data.y is None
else data.y[0]` in `_add_scatter_family` (subscripting an empty list
raises `IndexError`; validation makes that unreachable from
`compile_figure`). -/
def ySubscriptZero : Option YField → Except VizError (Option String)
  | none => .ok none
  | some (.inl s) => .ok (some s)
  | some (.inr (s :: _)) => .ok (some s)
  | some (.inr []) => .error (.indexError "list index out of range")

/-- the expression `data.y if isinstance(data.y, str) else data.y[0]` in
`_add_bar`: here a `None` y is subscripted too, raising `TypeError`. -/
def barYcol : Option YField → Except VizError String
  | none => .error (.typeError "NoneType is not subscriptable")
  | some (.inl s) => .ok s
  | some (.inr (s :: _)) => .ok s
  | some (.inr []) => .error (.indexError "list index out of range")

/-- pandas subscript `df[X]` in `_add_bar`, where `X` may be `None`
(KeyError), a column name, or — horizontal bar with a list `y` — a list of
names: `df[[...]]` yields a sub-frame, which plotly then rejects as a
trace coordinate array; modelled as an error. -/
def DataFrame.colYFieldE (df : DataFrame) : Option YField → Except VizError (List Value)
  | none => .error (.keyError "None")
  | some (.inl s) => df.colE s
  | some (.inr _) => .error (.typeError "invalid trace coordinate value")

/-- the mode expression at the top of `_add_scatter_family`:
`chart.mode.value if chart.mode else (Mode.lines.value if chart.type in
(line, area) else Mode.markers.value)`. -/
def scatterMode (spec : VizSpec) : String :=
  match spec.chart.mode with
  | some m => m.toStr
  | none =>
      if spec.chart.type = .line ∨ spec.chart.type = .area then "lines"
      else "markers"

/-- area option `fill="tozeroy"`. -/
def scatterFill (spec : VizSpec) : Option String :=
  if spec.chart.type = .area then some "tozeroy" else none

/-- area option `stackgroup`, set when
`data.axis and data.axis.area_stackgroup` is truthy. -/
def scatterStackgroup (spec : VizSpec) : Option String :=
  if spec.chart.type = .area then
    match spec.data.axis with
    | some ax =>
        match ax.area_stackgroup with
        | some s => if s.isEmpty then none else some s
        | none => none
    | none => none
  else none

/-- one iteration of the `for key, g in df.groupby(group_col)` loop of
`_add_scatter_family`. -/
def scatterSeriesTrace (spec : VizSpec) (kg : Value × DataFrame) :
    Except VizError Trace := do
  let g := kg.2
  let ycol ← ySubscriptZero spec.data.y
  let xv ← g.colTruthyE spec.data.x
  let yv ← g.colTruthyE ycol
  let tv ← g.colTruthyE spec.data.text
  let tr : Trace :=
    { kind := .scatter, x := xv, y := yv,
      mode := some (scatterMode spec),
      name := some (_label_series spec kg.1 (_label_y spec ycol)),
      text := tv, fill := scatterFill spec,
      stackgroup := scatterStackgroup spec }
  let tr := _apply_common tr kg.1.toStr spec
  pure (_route_axis tr ycol spec)

def _add_scatter_family (df0 : DataFrame) (spec : VizSpec) :
    Except VizError (List Trace) := do
  let data := spec.data
  let df := scatterWorkingFrame df0 data.x
  let textvals ← df.colTruthyE data.text
  match data.y, data.seriesBy with
  | some (.inr ys), none =>
      -- `if isinstance(data.y, list) and not (data.series and data.series.by)`
      ys.mapM (fun yc => do
        let xv ← df.colTruthyE data.x
        let yv ← df.colE yc
        let tr : Trace :=
          { kind := .scatter, x := xv, y := some yv,
            mode := some (scatterMode spec), name := some (_label_y spec (some yc)),
            text := textvals, fill := scatterFill spec,
            stackgroup := scatterStackgroup spec }
        let tr := _apply_common tr yc spec
        pure (_route_axis tr (some yc) spec))
  | _, some gc =>
      -- `elif data.series and data.series.by: for key, g in df.groupby(...)`
      if df.cols.contains gc then
        (seriesGroups df gc).mapM (scatterSeriesTrace spec)
      else throw (.keyError gc)
  | _, none => do
      let ycol ← ySubscriptZero data.y
      let xv ← df.colTruthyE data.x
      let yv ← df.colTruthyE ycol
      let tr : Trace :=
        { kind := .scatter, x := xv, y := yv,
          mode := some (scatterMode spec), name := some (_label_y spec ycol),
          text := textvals, fill := scatterFill spec,
          stackgroup := scatterStackgroup spec }
      let tr := _apply_common tr (ycol.getD "") spec
      pure [_route_axis tr ycol spec]

/-- the orient expression of `_add_bar`. -/
def barOrient (spec : VizSpec) : String :=
  match spec.chart.orientation with
  | some o => o.toStr
  | none => "v"

/-- one iteration of the `for key, g in df.groupby(group_col)` loop of
`_add_bar` (ycol is computed before the loop in the source). -/
def barSeriesTrace (spec : VizSpec) (ycol : String) (kg : Value × DataFrame) :
    Except VizError Trace := do
  let g := kg.2
  let pair ←
    if barOrient spec = "v" then do
      let a ← g.colOptE spec.data.x
      let b ← g.colE ycol
      pure (a, b)
    else do
      let a ← g.colE ycol
      let b ← g.colYFieldE spec.data.y
      pure (a, b)
  let tv ← g.colTruthyE spec.data.text
  let tr : Trace :=
    { kind := .bar, x := some pair.1, y := some pair.2,
      name := some (_label_series spec kg.1 (_label_y spec (some ycol))),
      text := tv }
  let tr := _apply_common tr kg.1.toStr spec
  pure (_route_axis tr (some ycol) spec)

def _add_bar (df : DataFrame) (spec : VizSpec) : Except VizError (List Trace) := do
  let data := spec.data
  -- `X, Y = (data.x, data.y) if orient == "v" else (data.y, data.x)`;
  -- only `X` is ever subscripted below
  let textvals ← df.colTruthyE data.text
  match data.y, data.seriesBy with
  | some (.inr ys), none =>
      ys.mapM (fun yc => do
        let pair ←
          if barOrient spec = "v" then do
            let a ← df.colOptE data.x
            let b ← df.colE yc
            pure (a, b)
          else do
            let a ← df.colE yc
            let b ← df.colYFieldE data.y
            pure (a, b)
        let tr : Trace :=
          { kind := .bar, x := some pair.1, y := some pair.2,
            name := some (_label_y spec (some yc)), text := textvals }
        let tr := _apply_common tr yc spec
        pure (_route_axis tr (some yc) spec))
  | _, some gc => do
      let ycol ← barYcol data.y    -- computed before the loop in the source
      if df.cols.contains gc then
        (seriesGroups df gc).mapM (barSeriesTrace spec ycol)
      else throw (.keyError gc)
  | _, none => do
      let ycol ← barYcol data.y
      let pair ←
        if barOrient spec = "v" then do
          let a ← df.colOptE data.x
          let b ← df.colE ycol
          pure (a, b)
        else do
          let a ← df.colE ycol
          let b ← df.colYFieldE data.y
          pure (a, b)
      let tr : Trace :=
        { kind := .bar, x := some pair.1, y := some pair.2,
          name := some (_label_y spec (some ycol)), text := textvals }
      let tr := _apply_common tr ycol spec
      pure [_route_axis tr (some ycol) spec]

def _add_histogram (df : DataFrame) (spec : VizSpec) : Except VizError (List Trace) := do
  let data := spec.data
  -- `col = data.x or (data.y if isinstance(data.y, str) else
  --  (data.y[0] if isinstance(data.y, list) else None))`
  let col : Option String ←
    if optStrTruthy data.x then pure data.x
    else match data.y with
      | some (.inl s) => pure (some s)
      | some (.inr (s :: _)) => pure (some s)
      | some (.inr []) => throw (.indexError "list index out of range")
      | none => pure none
  let xv ← df.colOptE col
  let tr : Trace :=
    { kind := .histogram, x := some xv,
      histnorm := spec.chart.histnorm.map HistNorm.toStr }
  pure [_apply_common tr (col.getD "") spec]

/-- the `else` arm of `_add_box` (no truthy x with a single string y). -/
def _add_box_fallback (df : DataFrame) (spec : VizSpec) :
    Except VizError (List Trace) := do
  let data := spec.data
  let ycol : Option String ←
    match data.y with
    | some (.inl s) => pure (some s)
    | some (.inr (s :: _)) => pure (some s)
    | some (.inr []) => throw (.indexError "list index out of range")
    | none => pure none
  let yv ← df.colOptE ycol
  let tv ← df.colTruthyE data.text
  let tr : Trace :=
    { kind := .box, y := some yv, boxpoints := some "outliers",
      name := some (_label_y spec ycol), text := tv }
  pure [_apply_common tr (ycol.getD "") spec]

def _add_box (df : DataFrame) (spec : VizSpec) : Except VizError (List Trace) := do
  let data := spec.data
  -- `if data.x and isinstance(data.y, str)`
  match data.x, data.y with
  | some xs, some (.inl yc) =>
      if !xs.isEmpty then do
        let xv ← df.colE xs
        let yv ← df.colE yc
        let tv ← df.colTruthyE data.text
        let tr : Trace :=
          { kind := .box, x := some xv, y := some yv,
            boxpoints := some "outliers", name := some (_label_y spec (some yc)),
            text := tv }
        pure [_apply_common tr yc spec]
      else _add_box_fallback df spec
  | _, _ => _add_box_fallback df spec

def _add_heatmap (df : DataFrame) (spec : VizSpec) : Except VizError (List Trace) :=
  let data := spec.data
  -- fallback branch: `go.Heatmap(z=df.values)` — the frame treated as a
  -- pre-shaped matrix, no named x/y/z
  let fallback : Except VizError (List Trace) :=
    pure [{ kind := .heatmap, z := some (df.rows.map (fun r => r.map some)) }]
  match data.x, data.y, data.z with
  | some xc, some yf, some zc =>
      -- `if x and y and z:` — truthiness of all three bindings
      if !xc.isEmpty && yFieldTruthy (some yf) && !zc.isEmpty then
        match yf with
        | .inl yc =>
            if hasDuplicatePairs df xc yc then
              throw (.compileError .heatmapDuplicatePairs)
            else
              -- `mat = df.pivot(index=y, columns=x, values=z)` followed by
              -- `go.Heatmap(z=mat.values, x=mat.columns.astype(str),
              --             y=mat.index.astype(str))`
              let p := df.pivot yc xc zc
              pure
                [{ kind := .heatmap, z := some p.matrix,
                   xlabels := some (p.colKeys.map Value.toStr),
                   ylabels := some (p.rowKeys.map Value.toStr) }]
        | .inr _ =>
            -- `df.duplicated(subset=[x, y])` with a list `y` puts a list
            -- inside `subset`; pandas rejects it (unhashable)
            throw (.typeError "unhashable type: list")
      else fallback
  | _, _, _ => fallback

def _add_pie (df : DataFrame) (spec : VizSpec) : Except VizError (List Trace) := do
  let data := spec.data
  -- `val_col = data.y if isinstance(data.y, str) else
  --  (data.y[0] if isinstance(data.y, list) else None)`
  let val_col : Option String ←
    match data.y with
    | some (.inl s) => pure (some s)
    | some (.inr (s :: _)) => pure (some s)
    | some (.inr []) => throw (.indexError "list index out of range")
    | none => pure none
  -- `if not (data.x and val_col): raise CompileError(...)`
  match data.x, val_col with
  | some xs, some vc =>
      if !xs.isEmpty && !vc.isEmpty then do
        let lv ← df.colE xs
        let vv ← df.colE vc
        let tv ← df.colTruthyE data.text
        -- `name=(data.name or _label_y(spec, val_col))`
        let nm := match data.name with
          | some n => if n.isEmpty then _label_y spec (some vc) else n
          | none => _label_y spec (some vc)
        let tr : Trace :=
          { kind := .pie, labels := some lv, values := some vv,
            text := tv, name := some nm }
        pure [_apply_common tr vc spec]
      else throw (.compileError .pieRequiresXY)
  | _, _ => throw (.compileError .pieRequiresXY)

/-! ## Layout assembly, guards and the compile entry points -/

structure Yaxis2Out where
  title : Option String
  overlaying : String
  side : String
deriving DecidableEq, Repr

structure LayoutOut where
  title : Option String := none
  xaxis_title : Option String := none
  yaxis_title : Option String := none
  hovermode : Option String := none
  template : Option String := none
  colorway : Option (List String) := none
  legend : Option (List (String × String)) := none
  height : Option Int := none
  width : Option Int := none
  yaxis2 : Option Yaxis2Out := none
  barmode : Option String := none
deriving DecidableEq, Repr

structure Figure where
  traces : List Trace
  layout : LayoutOut
deriving DecidableEq, Repr

/-- source `_guard_traces`: `if count > max_traces: raise CompileError`. -/
def _guard_traces (traces : List Trace) (max_traces : Nat) : Except VizError Unit :=
  if traces.length > max_traces then
    .error (.compileError (.tooManyTraces traces.length max_traces))
  else .ok ()

/-- the layout block of `compile_figure`: `fig.update_layout(...)` runs
only when a `layout` section exists; within it the `yaxis2` sub-dict is
added exactly when `data.axis and data.axis.y2_for` is truthy (whether or
not any trace was routed to y2); `barmode` is applied independently of the
layout section when the chart is a bar chart with `barmode` set. -/
def buildLayout (model : VizSpec) : LayoutOut :=
  let base : LayoutOut := match model.layout with
    | none => {}
    | some l =>
        { title := l.title, xaxis_title := l.xaxis_title,
          yaxis_title := l.yaxis_title,
          hovermode := l.hovermode.map HoverMode.toStr,
          template := l.template, colorway := l.colorway, legend := l.legend,
          height := l.height, width := l.width,
          yaxis2 :=
            if (match model.data.axis with
                | some ax => optListTruthy ax.y2_for
                | none => false) then
              some ⟨l.yaxis2_title, "y", "right"⟩
            else none }
  if model.chart.type = .bar then
    match model.chart.barmode with
    | some bm => { base with barmode := some bm.toStr }
    | none => base
  else base

/-- the list `[c for c in [data.x] + _listify(data.y) + [data.z, data.text]
if c]` handed to `_ensure_columns` (the `if c` filter drops `None` and
`""`). -/
def _listify : Option YField → List String
  | none => []
  | some (.inl s) => [s]
  | some (.inr l) => l

def boundCols (data : DataSpec) : List String :=
  ((match data.x with | some s => [s] | none => []) ++ _listify data.y ++
   (match data.z with | some s => [s] | none => []) ++
   (match data.text with | some s => [s] | none => [])).filter
    (fun c => !c.isEmpty)

/-- source `_ensure_columns`: collect every missing name and fail with one
`CompileError` listing all of them. -/
def _ensure_columns (df : DataFrame) (cols : List String) : Except VizError Unit :=
  let missing := cols.filter (fun c => !df.cols.contains c)
  if missing.isEmpty then .ok () else .error (.compileError (.missingColumns missing))

/-- the body of `compile_figure` after spec parsing: ensure columns, build
traces per family (the source's final `else` arm raising
`CompileError("Unsupported chart type")` is unreachable — the match on the
`ChartType` enum is exhaustive), assemble layout, apply barmode, guard the
trace count, return the figure. -/
def buildTraces (df : DataFrame) (model : VizSpec) : Except VizError (List Trace) :=
  match model.chart.type with
  | .line | .scatter | .area => _add_scatter_family df model
  | .bar => _add_bar df model
  | .histogram => _add_histogram df model
  | .box => _add_box df model
  | .heatmap => _add_heatmap df model
  | .pie => _add_pie df model

def compileModel (df : DataFrame) (model : VizSpec) : Except VizError Figure :=
  match _ensure_columns df (boundCols model.data) with
  | .error e => .error e
  | .ok _ =>
      match buildTraces df model with
      | .error e => .error e
      | .ok traces =>
          match _guard_traces traces 64 with
          | .error e => .error e
          | .ok _ => .ok ⟨traces, buildLayout model⟩

/-- source `compile_figure`: parse/validate the spec, then compile. -/
def compile_figure (df : DataFrame) (inp : SpecInput) : Except VizError Figure := do
  let model ← parse_viz_spec inp
  compileModel df model

/-! ## Payload assembly and the serialization check -/

def Value.isJsonSerializable : Value → Bool
  | .vStr _ => true
  | .vDate _ => false

def optValsSerializable : Option (List Value) → Bool
  | none => true
  | some l => l.all Value.isJsonSerializable

/-- Whether every data value carried by the trace is JSON-representable
(`json.dumps` succeeds on it).  A NaN hole in a pivot matrix serializes
(`json.dumps` emits `NaN` by default), a datetime value does not. -/
def Trace.serializable (t : Trace) : Bool :=
  optValsSerializable t.x && optValsSerializable t.y &&
  optValsSerializable t.text && optValsSerializable t.labels &&
  optValsSerializable t.values &&
  (match t.z with
   | none => true
   | some m => m.all (fun row => row.all (fun c =>
       match c with
       | none => true
       | some v => v.isJsonSerializable)))

/-- the payload dict `{ "figure": fig.to_plotly_json(), "plotly_config":
..., "viz_spec_version": model.version }` (`plotly_config = {}` when the
spec has none, modelled by `none`). -/
structure Payload where
  figure : Figure
  plotly_config : Option PlotlyJSConfig
  viz_spec_version : String
deriving DecidableEq, Repr

def Payload.serializable (p : Payload) : Bool :=
  p.figure.traces.all Trace.serializable

/-- source `compile_payload`: parse, compile the figure, assemble the
payload, then run `json.dumps(payload, ...)` as the serializability check —
which raises a plain `TypeError` (not a `CompileError`) on a
non-representable value; the exception is not caught. -/
def compile_payload (df : DataFrame) (inp : SpecInput) : Except VizError Payload := do
  let model ← parse_viz_spec inp
  let fig ← compile_figure df (.model model)
  let payload : Payload := ⟨fig, model.plotly_config, model.version⟩
  if payload.serializable then pure payload
  else throw (.typeError "Object of type Timestamp is not JSON serializable")

/-! ## Reference-semantics model of the dataframe argument

Frames live in a store and the caller passes a reference; the pair
returned is (store after the call, call result).  The only statement in
the engine that writes through a frame reference is the x-coercion block
in `_add_scatter_family`, and it is preceded by `df = df.copy()`, which
allocates a fresh frame and rebinds the local name — modelled by appending
the written copy to the store.  Every other access is a read. -/

def compile_figure_st (store : List DataFrame) (ref : Nat) (inp : SpecInput) :
    List DataFrame × Except VizError Figure :=
  match parse_viz_spec inp with
  | .error e => (store, .error e)
  | .ok model =>
      if model.chart.type = .line ∨ model.chart.type = .scatter ∨
          model.chart.type = .area then
        match model.data.x with
        | some xc =>
            if !xc.isEmpty && !isDatetimeDtype ((store.getD ref default).col xc) then
              -- `df = df.copy()` allocates; `df[x] = pd.to_datetime(...)`
              -- writes through the local reference, which now points at
              -- the fresh frame appended to the store
              (store ++ [(store.getD ref default).coerceFrame xc],
               compileModel (store.getD ref default) model)
            else (store, compileModel (store.getD ref default) model)
        | none => (store, compileModel (store.getD ref default) model)
      else (store, compileModel (store.getD ref default) model)

def compile_payload_st (store : List DataFrame) (ref : Nat) (inp : SpecInput) :
    List DataFrame × Except VizError Payload :=
  match parse_viz_spec inp with
  | .error e => (store, .error e)
  | .ok model =>
      match compile_figure_st store ref (.model model) with
      | (store2, .error e) => (store2, .error e)
      | (store2, .ok fig) =>
          let payload : Payload := ⟨fig, model.plotly_config, model.version⟩
          (store2,
           if payload.serializable then .ok payload
           else .error (.typeError "Object of type Timestamp is not JSON serializable"))

/-! ## Concrete instances used by counterexamples and witnesses -/

def exChartLine : ChartSpec := ⟨.line, none, none, none, none⟩

def exChartHeatmap : ChartSpec := ⟨.heatmap, none, none, none, none⟩

def exRawDataEmpty : RawDataSpec :=
  ⟨none, none, none, none, none, none, none, none, none, none, none⟩

def exRawBase : RawVizSpec := ⟨.absent, exChartLine, exRawDataEmpty, none, none⟩

def exC1df : DataFrame :=
  ⟨["g", "v"],
   [[.vStr "b", .vStr "1"], [.vStr "a", .vStr "2"], [.vStr "b", .vStr "3"]]⟩

def exC1data : RawDataSpec :=
  { exRawDataEmpty with y := some (.inl "v"), series := some ⟨some "g"⟩ }

def exC1raw : RawVizSpec := { exRawBase with data := exC1data }

def exC2data : RawDataSpec :=
  { exRawDataEmpty with y := some (.inr ["a", "b"]), series := some ⟨some ""⟩ }

def exC2raw : RawVizSpec := { exRawBase with data := exC2data }

def exC2df : DataFrame := ⟨["a", "b"], [[.vStr "1", .vStr "2"]]⟩

def exC3df : DataFrame :=
  ⟨["w", "s", "c"],
   [[.vStr "w2", .vStr "sB", .vStr "5"], [.vStr "w1", .vStr "sA", .vStr "7"]]⟩

def exC3data : RawDataSpec :=
  { exRawDataEmpty with x := some "w", y := some (.inl "s"), z := some "c" }

def exC3raw : RawVizSpec := { exRawBase with chart := exChartHeatmap, data := exC3data }

def exC5data : RawDataSpec :=
  { exRawDataEmpty with y := some (.inl "a"), axis := some ⟨some ["b"], none⟩ }

def exC5layout : RawLayout :=
  ⟨none, none, none, none, none, none, none, none, .absent, none⟩

def exC5raw : RawVizSpec :=
  { exRawBase with data := exC5data, layout := some exC5layout }

def exC5df : DataFrame := ⟨["a"], [[.vStr "1"]]⟩

def exC6df : DataFrame := ⟨["d", "v"], [[.vStr "2024-01-02", .vStr "5"]]⟩

def exC6data : RawDataSpec :=
  { exRawDataEmpty with x := some "d", y := some (.inl "v") }

def exC6raw : RawVizSpec := { exRawBase with data := exC6data }

def exC9data : RawDataSpec :=
  { exRawDataEmpty with y := some (.inl "a"), colors := some ⟨some [("k", "")]⟩ }

def exC9raw : RawVizSpec := { exRawBase with data := exC9data }

def exC10data : RawDataSpec :=
  { exRawDataEmpty with x := some "", y := some (.inl "s"), z := some "c" }

def exC10raw : RawVizSpec :=
  { exRawBase with chart := exChartHeatmap, data := exC10data }

def exC10df : DataFrame := ⟨["s", "c"], [[.vStr "sA", .vStr "3"]]⟩

/-! ## Support lemmas -/

theorem validateYField_ok_eq {v w : Option YField}
    (h : validateYField v = .ok w) : w = v := by
  cases v with
  | none => simpa [validateYField] using h.symm
  | some yf =>
    cases yf with
    | inl s => simpa [validateYField] using h.symm
    | inr l =>
      by_cases he : l.isEmpty <;> by_cases hn : l.Nodup <;>
        simp [validateYField, he, hn] at h <;> simp [h]

theorem compile_figure_of_parse_error {df : DataFrame} {inp : SpecInput}
    {e : VizError} (h : parse_viz_spec inp = .error e) :
    compile_figure df inp = .error e := by
  simp only [compile_figure, h]
  rfl

theorem parse_viz_spec_obj (r : RawVizSpec) :
    parse_viz_spec (.obj r) = parseRawSpec r := rfl

/-! ## Claim C4 -/

/-- C4: the claim says `parseSpec` fails with `SpecParseError` exactly when
the input is not well-formed structured data.  In the code, a malformed
JSON string fails inside pydantic v1 `parse_raw`, which wraps the JSON
decode error in a `ValidationError`; `parse_viz_spec` catches
`ValidationError` first and re-raises `SpecValidationError`, so a caller
sees the same error class for malformed input as for structurally valid
but constraint-violating input — contradicting both the claim and the
repository's own error-taxonomy documentation ("SpecParseError (invalid
JSON)").  This theorem evaluates the model at the failing input: a
non-JSON string produces `SpecValidationError`, not `SpecParseError`. -/
theorem C4_malformed_json_is_validation_error :
    parse_viz_spec (.jsonStr none) =
      .error (.specValidationError
        [⟨["__root__"], "Invalid JSON (value_error.jsondecode)"⟩]) := rfl

/-! ## Claim C9 -/

/-- C9 counterexample: the claim says a `color_map` entry is rejected
exactly when it is neither a 6- or 8-digit hex string nor a non-empty string.
The empty string is neither, yet a spec whose `color_map` carries `""`
passes validation, because `_valid_color` ends in `or isinstance(s, str)`,
which is always true. -/
theorem C9_counterexample :
    (parseRawSpec exC9raw).isOk = true ∧ hexMatch "" = false ∧
      ("" : String).isEmpty = true := by decide

/-- C9 (amended): validation never rejects any string color entry — the
`isinstance(s, str)` disjunct of `_valid_color` subsumes the hex test, so
`_validate_colors` and `_validate_colorway` accept every map/list,
including empty-string entries. -/
theorem C9_every_color_accepted :
    (∀ s : String, _valid_color s = true) ∧
    (∀ v, validateColorMap v = .ok v) ∧
    (∀ l, validateColorway l = .ok l) := by
  refine ⟨fun s => ?_, fun v => ?_, fun l => ?_⟩
  · simp [_valid_color]
  · cases v with
    | none => rfl
    | some m =>
        have hf : m.find? (fun kc => !_valid_color kc.2) = none := by
          simp [List.find?_eq_none, _valid_color]
        simp [validateColorMap, hf]
  · cases l with
    | none => rfl
    | some cs =>
        have hf : cs.find? (fun c => !_valid_color c) = none := by
          simp [List.find?_eq_none, _valid_color]
        simp [validateColorway, hf]

/-! ## Claim C2 -/

/-- C2 counterexample: the claim says every spec with a list `y` and
`data.series.by` set fails validation.  The validator tests the truthiness
of `data.series.by`, so a spec with `series.by` set to the empty string
passes validation and compiles (under the list-`y` strategy). -/
theorem C2_counterexample :
    exC2raw.data.y = some (.inr ["a", "b"]) ∧
    exC2raw.data.series = some ⟨some ""⟩ ∧
    (parse_viz_spec (.obj exC2raw)).isOk = true ∧
    (compile_figure exC2df (.obj exC2raw)).isOk = true := by decide

theorem semantic_checks_listy_seriesby {m : VizSpec} (ys : List String)
    (hy : m.data.y = some (.inr ys)) (hb : (m.data.seriesBy).isSome = true) :
    ∃ e, VizSpec._semantic_checks m = .error e := by
  have h3 : (match m.data.y with
      | some (.inr _) => (m.data.seriesBy).isSome
      | _ => false) = true := by rw [hy]; exact hb
  unfold VizSpec._semantic_checks
  dsimp only
  split
  · exact ⟨_, rfl⟩
  split
  · exact ⟨_, rfl⟩
  exact ⟨_, rfl⟩

theorem parseDataSpec_ok_parts {r : RawDataSpec} {d : DataSpec}
    (h : parseDataSpec r = .ok d) :
    validateYField r.y = .ok d.y ∧ d.series = r.series ∧ d.x = r.x ∧
      d.z = r.z ∧ d.text = r.text := by
  unfold parseDataSpec at h
  split at h
  · exact Except.noConfusion h
  · exact Except.noConfusion h
  · exact Except.noConfusion h
  · rename_i y cm enc hy hcm henc
    cases h
    exact ⟨hy, rfl, rfl, rfl, rfl⟩

theorem parseRawSpec_error_shape {r : RawVizSpec} {e : VizError}
    (h : parseRawSpec r = .error e) :
    ∃ errs, e = .specValidationError errs := by
  unfold parseRawSpec at h
  split at h
  · exact ⟨_, (Except.error.inj h).symm⟩
  · exact ⟨_, (Except.error.inj h).symm⟩
  · exact ⟨_, (Except.error.inj h).symm⟩
  · exact ⟨_, (Except.error.inj h).symm⟩
  · dsimp only at h
    split at h
    · exact Except.noConfusion h
    · exact ⟨_, (Except.error.inj h).symm⟩

theorem parseRawSpec_ok_parts {r : RawVizSpec} {m : VizSpec}
    (h : parseRawSpec r = .ok m) :
    parseVersion r.version = .ok m.version ∧
    m.chart = ChartSpec._defaults_and_semantics r.chart ∧
    parseDataSpec r.data = .ok m.data ∧
    parseLayoutOpt r.layout = .ok m.layout ∧
    parsePlotlyConfigOpt r.plotly_config = .ok m.plotly_config ∧
    VizSpec._semantic_checks m = .ok () := by
  unfold parseRawSpec at h
  split at h
  · exact Except.noConfusion h
  · exact Except.noConfusion h
  · exact Except.noConfusion h
  · exact Except.noConfusion h
  · rename_i ver data layout cfg hver hdata hlay hcfg
    dsimp only at h
    split at h
    · rename_i u hsem
      cases h
      exact ⟨hver, rfl, hdata, hlay, hcfg, by rw [hsem]⟩
    · exact Except.noConfusion h

/-- C2 (amended): a spec whose `y` is a list and whose `series.by` is a
non-empty string is rejected by validation with a `SpecValidationError`,
and the same spec fed to `compile_figure` fails with that error before any
trace is built.  (The validator tests the truthiness of `series.by`, so
the amendment excludes an empty-string `by`, which passes — see the
counterexample.) -/
theorem C2_listy_nonempty_seriesby_rejected
    (r : RawVizSpec) (ys : List String) (s : SeriesSpec) (b : String)
    (hy : r.data.y = some (.inr ys)) (hs : r.data.series = some s)
    (hb : s.by_ = some b) (hbne : b.isEmpty = false) :
    ∃ errs, parse_viz_spec (.obj r) = .error (.specValidationError errs) ∧
      ∀ df, compile_figure df (.obj r) = .error (.specValidationError errs) := by
  have hp : ∃ errs, parseRawSpec r = .error (.specValidationError errs) := by
    cases hres : parseRawSpec r with
    | error e =>
        obtain ⟨errs, he⟩ := parseRawSpec_error_shape hres
        exact ⟨errs, by rw [he]⟩
    | ok m =>
        exfalso
        obtain ⟨-, -, hdata, -, -, hsem⟩ := parseRawSpec_ok_parts hres
        obtain ⟨hvy, hser, -, -, -⟩ := parseDataSpec_ok_parts hdata
        have hmy : m.data.y = some (.inr ys) := by
          have := validateYField_ok_eq hvy
          rw [this, hy]
        have hby : (m.data.seriesBy).isSome = true := by
          simp [DataSpec.seriesBy, hser, hs, hb, hbne]
        obtain ⟨e, he⟩ := semantic_checks_listy_seriesby ys hmy hby
        rw [he] at hsem
        exact Except.noConfusion hsem
  obtain ⟨errs, he⟩ := hp
  have he' : parse_viz_spec (.obj r) = .error (.specValidationError errs) := he
  exact ⟨errs, he', fun df => compile_figure_of_parse_error he'⟩

/-- C2 witness: the amended theorem applied at a concrete spec
(`y = ["a", "b"]`, `series.by = "c"`). -/
theorem C2_listy_nonempty_seriesby_rejected_witness :
    ∃ errs,
      parse_viz_spec
          (.obj { exRawBase with
                   data := { exRawDataEmpty with
                              y := some (.inr ["a", "b"]),
                              series := some ⟨some "c"⟩ } }) =
        .error (.specValidationError errs) ∧
      ∀ df, compile_figure df
          (.obj { exRawBase with
                   data := { exRawDataEmpty with
                              y := some (.inr ["a", "b"]),
                              series := some ⟨some "c"⟩ } }) =
        .error (.specValidationError errs) :=
  C2_listy_nonempty_seriesby_rejected _ ["a", "b"] ⟨some "c"⟩ "c" rfl rfl rfl rfl

instance {e a : Type} [DecidableEq e] [DecidableEq a] : DecidableEq (Except e a) :=
  fun x y =>
    match x, y with
    | .ok u, .ok v =>
        if h : u = v then isTrue (by rw [h])
        else isFalse (by intro hh; cases hh; exact h rfl)
    | .error u, .error v =>
        if h : u = v then isTrue (by rw [h])
        else isFalse (by intro hh; cases hh; exact h rfl)
    | .ok _, .error _ => isFalse (by intro hh; cases hh)
    | .error _, .ok _ => isFalse (by intro hh; cases hh)

theorem compile_figure_model (df : DataFrame) (m : VizSpec) :
    compile_figure df (.model m) = compileModel df m := rfl

theorem compileModel_ok_parts {df : DataFrame} {m : VizSpec} {fig : Figure}
    (h : compileModel df m = .ok fig) :
    _ensure_columns df (boundCols m.data) = .ok () ∧
    buildTraces df m = .ok fig.traces ∧
    _guard_traces fig.traces 64 = .ok () ∧
    fig.layout = buildLayout m := by
  unfold compileModel at h
  split at h
  · exact Except.noConfusion h
  rename_i x1 hens
  split at h
  · exact Except.noConfusion h
  rename_i traces htr
  split at h
  · exact Except.noConfusion h
  rename_i x2 hguard
  cases h
  cases x1
  cases x2
  exact ⟨hens, htr, hguard, rfl⟩

theorem buildLayout_yaxis2 (m : VizSpec) :
    (buildLayout m).yaxis2 =
      match m.layout with
      | none => none
      | some l =>
          if (match m.data.axis with
              | some ax => optListTruthy ax.y2_for
              | none => false) then some ⟨l.yaxis2_title, "y", "right"⟩
          else none := by
  unfold buildLayout
  cases m.layout <;> cases hc : m.chart.type <;>
    first
      | rfl
      | (cases m.chart.barmode <;> rfl)

/-! ## Claim C5 -/

/-- C5 counterexample: the claim says the layout contains a secondary
y-axis definition iff at least one trace was routed to y2.  Here
`axis.y2_for = ["b"]` while the only trace's y column is `"a"`: no trace
is routed to y2 (`yaxis = none`), yet the layout contains `yaxis2`,
because the layout block tests `data.axis.y2_for` truthiness, not actual
routing. -/
theorem C5_counterexample :
    (compile_figure exC5df (.obj exC5raw)).map
        (fun f => (f.layout.yaxis2.isSome, f.traces.map Trace.yaxis)) =
      .ok (true, [none]) := by decide

/-- C5 (amended): for every successful compile, the assembled layout
contains the secondary y-axis definition iff a `layout` section is present
in the spec and `data.axis.y2_for` is a non-empty list — independently of
whether any trace was actually routed to y2. -/
theorem C5_yaxis2_iff_layout_and_y2for (df : DataFrame) (m : VizSpec)
    (fig : Figure) (h : compile_figure df (.model m) = .ok fig) :
    fig.layout.yaxis2.isSome =
      (m.layout.isSome &&
        (match m.data.axis with
         | some ax => optListTruthy ax.y2_for
         | none => false)) := by
  have hl : fig.layout = buildLayout m :=
    (compileModel_ok_parts (by rwa [compile_figure_model] at h)).2.2.2
  rw [hl, buildLayout_yaxis2]
  cases m.layout with
  | none => rfl
  | some l =>
      dsimp only
      split
      · rename_i hc
        simp [hc]
      · rename_i hc
        rw [Bool.not_eq_true] at hc
        simp [hc]

def exC5m : VizSpec :=
  ⟨"1.0", ⟨.line, some .lines, none, none, none⟩,
   ⟨none, none, some (.inl "a"), none, none, none, none,
    some ⟨some ["b"], none⟩, none, none, none⟩,
   some ⟨none, none, none, none, none, none, none, none, some 450, none⟩,
   none⟩

def exC5fig : Figure :=
  (compile_figure exC5df (.model exC5m)).toOption.getD ⟨[], {}⟩

/-- C5 witness: the amended theorem applied at the concrete spec of the
counterexample. -/
theorem C5_yaxis2_iff_layout_and_y2for_witness :
    exC5fig.layout.yaxis2.isSome =
      (exC5m.layout.isSome &&
        (match exC5m.data.axis with
         | some ax => optListTruthy ax.y2_for
         | none => false)) :=
  C5_yaxis2_iff_layout_and_y2for exC5df exC5m exC5fig (by decide)

/-! ## Claim C10 -/

/-- C10 counterexample: the claim says every validated heatmap spec takes
the long-form pivot path, making the pre-shaped-matrix fallback
unreachable through `compile_figure`.  The validator only checks that x,
y, z are not `None`, while the builder branches on truthiness: a validated
heatmap spec with `x = ""` passes validation and lands in the fallback
branch (a raw-values trace with no x/y labels). -/
theorem C10_counterexample :
    (parse_viz_spec (.obj exC10raw)).isOk = true ∧
    exC10raw.data.x = some "" ∧
    compile_figure exC10df (.obj exC10raw) =
      .ok ⟨[{ kind := .heatmap,
              z := some [[some (.vStr "sA"), some (.vStr "3")]] }], {}⟩ := by
  decide

/-- C10 (amended): every `VizSpec` that passes validation with
`chart.type = heatmap` has x, y and z all non-`None`; but because
`_add_heatmap` tests Python truthiness (`if x and y and z`), the
pre-shaped-matrix fallback branch is still reachable whenever one of the
three bindings is the empty string — it is unreachable only when all
three are non-empty. -/
theorem C10_heatmap_fallback_reachable (r : RawVizSpec) (m : VizSpec)
    (df : DataFrame)
    (hp : parse_viz_spec (.obj r) = .ok m) (hh : m.chart.type = .heatmap)
    (hfalsy : (optStrTruthy m.data.x && yFieldTruthy m.data.y &&
        optStrTruthy m.data.z) = false) :
    (m.data.x.isSome = true ∧ m.data.y.isSome = true ∧ m.data.z.isSome = true) ∧
    _add_heatmap df m =
      .ok [{ kind := .heatmap,
             z := some (df.rows.map (fun row => row.map some)) }] := by
  have hsem : VizSpec._semantic_checks m = .ok () :=
    (parseRawSpec_ok_parts hp).2.2.2.2.2
  have h1 : ¬(m.chart.type = ChartType.heatmap ∧
      (m.data.x.isNone = true ∨ m.data.y.isNone = true ∨
       m.data.z.isNone = true)) := by
    intro hc
    unfold VizSpec._semantic_checks at hsem
    dsimp only at hsem
    rw [if_pos hc] at hsem
    exact Except.noConfusion hsem
  have hsome : m.data.x.isSome = true ∧ m.data.y.isSome = true ∧
      m.data.z.isSome = true := by
    refine ⟨?_, ?_, ?_⟩ <;>
      [cases hox : m.data.x; cases hoy : m.data.y; cases hoz : m.data.z] <;>
      first
        | rfl
        | (exfalso; apply h1; refine ⟨hh, ?_⟩; simp [hox])
        | (exfalso; apply h1; refine ⟨hh, ?_⟩; simp [hoy])
        | (exfalso; apply h1; refine ⟨hh, ?_⟩; simp [hoz])
  refine ⟨hsome, ?_⟩
  obtain ⟨hxs, hys, hzs⟩ := hsome
  obtain ⟨xc, hxc⟩ := Option.isSome_iff_exists.mp hxs
  obtain ⟨yf, hyf⟩ := Option.isSome_iff_exists.mp hys
  obtain ⟨zc, hzc⟩ := Option.isSome_iff_exists.mp hzs
  unfold _add_heatmap
  dsimp only
  rw [hxc, hyf, hzc]
  dsimp only
  rw [hxc, hyf, hzc] at hfalsy
  have hcond : (!xc.isEmpty && yFieldTruthy (some yf) && !zc.isEmpty) = false := by
    simpa [optStrTruthy] using hfalsy
  rw [if_neg (by rw [hcond]; exact Bool.false_ne_true)]
  rfl

def exC10m : VizSpec :=
  ⟨"1.0", ⟨.heatmap, none, none, none, none⟩,
   ⟨none, some "", some (.inl "s"), some "c", none, none, none, none,
    none, none, none⟩,
   none, none⟩

/-- C10 witness: the amended theorem applied at the concrete validated
heatmap spec with `x = ""`. -/
theorem C10_heatmap_fallback_reachable_witness :
    (exC10m.data.x.isSome = true ∧ exC10m.data.y.isSome = true ∧
     exC10m.data.z.isSome = true) ∧
    _add_heatmap exC10df exC10m =
      .ok [{ kind := .heatmap,
             z := some (exC10df.rows.map (fun row => row.map some)) }] :=
  C10_heatmap_fallback_reachable exC10raw exC10m exC10df (by decide) rfl
    (by decide)

/-! ## Claim C3 -/

/-- C3 counterexample: the claim says the pivoted matrix's rows/columns
are the distinct y/x values in first-seen order.  pandas `pivot` (via
`set_index(...).unstack(...)`) sorts both label axes: here the x column is
seen in order `w2, w1` and the y column in order `sB, sA`, yet the
compiled heatmap trace carries the ascending labels `["w1", "w2"]` /
`["sA", "sB"]`. -/
theorem C3_counterexample :
    (compile_figure exC3df (.obj exC3raw)).map
        (fun f => f.traces.map (fun t => (t.xlabels, t.ylabels))) =
      .ok [(some ["w1", "w2"], some ["sA", "sB"])] ∧
    firstUniques (exC3df.col "w") = [.vStr "w2", .vStr "w1"] ∧
    firstUniques (exC3df.col "s") = [.vStr "sB", .vStr "sA"] := by decide

/-- C3 (amended): for a long-form heatmap compile (x, y, z bound to
non-empty column names), duplicate (x, y) pairs always fail with the
ambiguous-aggregation `CompileError` (the compiler never aggregates);
without duplicates the long form is pivoted into a dense rectangular
matrix whose rows are the distinct y values and whose columns are the
distinct x values — in ascending sorted order (pandas `pivot` sorts both
axes; first-seen order is not preserved). -/
theorem C3_heatmap_long_form (df : DataFrame) (m : VizSpec)
    (xc yc zc : String)
    (hty : m.chart.type = .heatmap)
    (hx : m.data.x = some xc) (hy : m.data.y = some (.inl yc))
    (hz : m.data.z = some zc)
    (hxne : xc.isEmpty = false) (hyne : yc.isEmpty = false)
    (hzne : zc.isEmpty = false)
    (hens : _ensure_columns df (boundCols m.data) = .ok ()) :
    (hasDuplicatePairs df xc yc = true →
        compile_figure df (.model m) =
          .error (.compileError .heatmapDuplicatePairs)) ∧
    (hasDuplicatePairs df xc yc = false →
        compile_figure df (.model m) =
          .ok ⟨[{ kind := .heatmap, z := some (df.pivot yc xc zc).matrix,
                  xlabels := some ((df.pivot yc xc zc).colKeys.map Value.toStr),
                  ylabels := some ((df.pivot yc xc zc).rowKeys.map Value.toStr) }],
               buildLayout m⟩ ∧
        (df.pivot yc xc zc).rowKeys = sortVals (firstUniques (df.col yc)) ∧
        List.Sorted vleP (df.pivot yc xc zc).rowKeys ∧
        ((df.pivot yc xc zc).rowKeys).Perm (firstUniques (df.col yc)) ∧
        (df.pivot yc xc zc).colKeys = sortVals (firstUniques (df.col xc)) ∧
        List.Sorted vleP (df.pivot yc xc zc).colKeys ∧
        ((df.pivot yc xc zc).colKeys).Perm (firstUniques (df.col xc)) ∧
        (df.pivot yc xc zc).matrix.length = (df.pivot yc xc zc).rowKeys.length ∧
        ∀ row ∈ (df.pivot yc xc zc).matrix,
          row.length = (df.pivot yc xc zc).colKeys.length) := by
  have hcond : (!xc.isEmpty && yFieldTruthy (some (.inl yc)) && !zc.isEmpty) = true := by
    simp [yFieldTruthy, hxne, hyne, hzne]
  constructor
  · intro hdup
    rw [compile_figure_model]
    unfold compileModel
    rw [hens]
    have hbt : buildTraces df m = .error (.compileError .heatmapDuplicatePairs) := by
      unfold buildTraces
      rw [hty]
      dsimp only
      unfold _add_heatmap
      dsimp only
      rw [hx, hy, hz]
      dsimp only
      rw [if_pos hcond, if_pos hdup]
      rfl
    rw [hbt]
  · intro hnd
    rw [compile_figure_model]
    unfold compileModel
    rw [hens]
    have hbt : buildTraces df m =
        .ok [{ kind := .heatmap, z := some (df.pivot yc xc zc).matrix,
               xlabels := some ((df.pivot yc xc zc).colKeys.map Value.toStr),
               ylabels := some ((df.pivot yc xc zc).rowKeys.map Value.toStr) }] := by
      unfold buildTraces
      rw [hty]
      dsimp only
      unfold _add_heatmap
      dsimp only
      rw [hx, hy, hz]
      dsimp only
      rw [if_pos hcond, if_neg (by rw [hnd]; exact Bool.false_ne_true)]
      rfl
    rw [hbt]
    refine ⟨rfl, rfl, sortVals_sorted _, sortVals_perm _, rfl,
      sortVals_sorted _, sortVals_perm _, ?_, ?_⟩
    · simp [DataFrame.pivot]
    · intro row hrow
      simp only [DataFrame.pivot, List.mem_map] at hrow
      obtain ⟨rk, -, hrk⟩ := hrow
      rw [← hrk]
      simp [DataFrame.pivot]

def exC3dupdf : DataFrame :=
  ⟨["w", "s", "c"],
   [[.vStr "w1", .vStr "sA", .vStr "5"], [.vStr "w1", .vStr "sA", .vStr "7"]]⟩

def exC3m : VizSpec :=
  ⟨"1.0", ⟨.heatmap, none, none, none, none⟩,
   ⟨none, some "w", some (.inl "s"), some "c", none, none, none, none,
    none, none, none⟩,
   none, none⟩

/-- C3 witness: the amended theorem applied at a concrete table with a
duplicated (week, store) pair — compilation fails with the
ambiguous-aggregation error. -/
theorem C3_heatmap_long_form_witness :
    compile_figure exC3dupdf (.model exC3m) =
      .error (.compileError .heatmapDuplicatePairs) :=
  (C3_heatmap_long_form exC3dupdf exC3m "w" "s" "c" rfl rfl rfl rfl rfl rfl
      rfl (by decide)).1 (by decide)

/-! ## Claim C6 -/

/-- C6 counterexample: the claim says a non-serializable payload fails
fast with `CompileError(kind=NotSerializable)`.  The figure compiles (the
x column parses as dates and is coerced to datetime values), but the
serialization check is a bare `json.dumps(...)` call whose `TypeError` is
not caught or wrapped — the caller sees a `TypeError`, not a
`CompileError`. -/
theorem C6_counterexample :
    (compile_figure exC6df (.obj exC6raw)).isOk = true ∧
    compile_payload exC6df (.obj exC6raw) =
      .error (.typeError "Object of type Timestamp is not JSON serializable") := by
  decide

/-- C6 (amended): `compile_payload` runs the serialization check after
assembling the payload and before returning it, so no payload containing
a non-serializable value is ever surfaced — but the failure is the
serializer's own `TypeError`, not a `CompileError`: the result is `ok`
with the (serializable) payload exactly when the check passes, and the
uncaught `TypeError` otherwise. -/
theorem C6_serialize_gate (df : DataFrame) (m : VizSpec) (fig : Figure)
    (hfig : compile_figure df (.model m) = .ok fig) :
    compile_payload df (.model m) =
      (if Payload.serializable ⟨fig, m.plotly_config, m.version⟩ then
        .ok ⟨fig, m.plotly_config, m.version⟩
      else
        .error (.typeError "Object of type Timestamp is not JSON serializable")) := by
  have hdef : compile_payload df (.model m) =
      Except.bind (compile_figure df (.model m)) (fun fig =>
        if Payload.serializable ⟨fig, m.plotly_config, m.version⟩ then
          Except.ok ⟨fig, m.plotly_config, m.version⟩
        else
          Except.error
            (.typeError "Object of type Timestamp is not JSON serializable")) := rfl
  rw [hdef, hfig]
  rfl

def exC6m : VizSpec :=
  ⟨"1.0", ⟨.line, some .lines, none, none, none⟩,
   ⟨none, some "d", some (.inl "v"), none, none, none, none, none,
    none, none, none⟩,
   none, none⟩

def exC6fig : Figure :=
  (compile_figure exC6df (.model exC6m)).toOption.getD ⟨[], {}⟩

/-- C6 witness: the amended theorem applied at the date-bearing concrete
input of the counterexample. -/
theorem C6_serialize_gate_witness :
    compile_payload exC6df (.model exC6m) =
      (if Payload.serializable ⟨exC6fig, exC6m.plotly_config, exC6m.version⟩ then
        .ok ⟨exC6fig, exC6m.plotly_config, exC6m.version⟩
      else
        .error (.typeError "Object of type Timestamp is not JSON serializable")) :=
  C6_serialize_gate exC6df exC6m exC6fig (by decide)

/-! ## Claim C8 -/

theorem except_ok_bind {a b e : Type} (x : a) (f : a → Except e b) :
    (Except.ok x : Except e a).bind f = f x := rfl

theorem except_ok_bindb {a b e : Type} (x : a) (f : a → Except e b) :
    (Except.ok x : Except e a) >>= f = f x := rfl

theorem compile_figure_st_preserves {store : List DataFrame} {ref : Nat}
    (inp : SpecInput) (h : ref < store.length) :
    (compile_figure_st store ref inp).1.get? ref = store.get? ref := by
  unfold compile_figure_st
  split
  · rfl
  split
  · split
    · split
      · exact List.get?_append h
      · rfl
    · rfl
  · rfl

theorem compile_figure_st_result (store : List DataFrame) (ref : Nat)
    (inp : SpecInput) :
    (compile_figure_st store ref inp).2 =
      compile_figure (store.getD ref default) inp := by
  unfold compile_figure_st compile_figure
  cases hp : parse_viz_spec inp with
  | error e => rfl
  | ok model =>
      dsimp only
      show _ = compileModel (store.getD ref default) model
      split
      · split
        · split
          · rfl
          · rfl
        · rfl
      · rfl

theorem compile_payload_st_preserves {store : List DataFrame} {ref : Nat}
    (inp : SpecInput) (h : ref < store.length) :
    (compile_payload_st store ref inp).1.get? ref = store.get? ref := by
  unfold compile_payload_st
  cases hp : parse_viz_spec inp with
  | error e => rfl
  | ok model =>
      dsimp only
      have hpre := compile_figure_st_preserves (.model model) h
      cases hcf : compile_figure_st store ref (.model model) with
      | mk st2 res =>
          cases res with
          | error e =>
              rw [hcf] at hpre
              exact hpre
          | ok fig =>
              rw [hcf] at hpre
              exact hpre

theorem compile_payload_st_result (store : List DataFrame) (ref : Nat)
    (inp : SpecInput) :
    (compile_payload_st store ref inp).2 =
      compile_payload (store.getD ref default) inp := by
  have hdef : compile_payload (store.getD ref default) inp =
      Except.bind (parse_viz_spec inp) (fun model =>
        Except.bind (compile_figure (store.getD ref default) (.model model))
          (fun fig =>
            if Payload.serializable ⟨fig, model.plotly_config, model.version⟩ then
              Except.ok ⟨fig, model.plotly_config, model.version⟩
            else
              Except.error
                (.typeError "Object of type Timestamp is not JSON serializable"))) := rfl
  rw [hdef]
  unfold compile_payload_st
  cases hp : parse_viz_spec inp with
  | error e => rfl
  | ok model =>
      dsimp only
      have hres := compile_figure_st_result store ref (.model model)
      cases hcf : compile_figure_st store ref (.model model) with
      | mk st2 res =>
          cases res with
          | error e =>
              rw [hcf] at hres
              simp only [except_ok_bind]
              rw [← hres]
              rfl
          | ok fig =>
              rw [hcf] at hres
              simp only [except_ok_bind]
              rw [← hres]
              rfl

/-- C8: the compiler never mutates the caller's frame.  In the
reference-semantics model, a `compile_figure` or `compile_payload` call
leaves the caller's store slot untouched (the only write in the engine —
the x date-coercion in `_add_scatter_family` — is preceded by
`df = df.copy()`, so the write lands on a private fresh frame), and the
call's result is exactly that of the pure compile on the frame's value,
whether the call succeeds or fails. -/
theorem C8_no_input_mutation (store : List DataFrame) (ref : Nat)
    (inp : SpecInput) (h : ref < store.length) :
    (compile_figure_st store ref inp).1.get? ref = store.get? ref ∧
    (compile_figure_st store ref inp).2 =
      compile_figure (store.getD ref default) inp ∧
    (compile_payload_st store ref inp).1.get? ref = store.get? ref ∧
    (compile_payload_st store ref inp).2 =
      compile_payload (store.getD ref default) inp :=
  ⟨compile_figure_st_preserves inp h, compile_figure_st_result store ref inp,
   compile_payload_st_preserves inp h, compile_payload_st_result store ref inp⟩

/-- C8 witness: the theorem applied at a concrete one-frame store with a
date-bearing x column, so the coercion path actually runs and allocates a
copy. -/
theorem C8_no_input_mutation_witness :
    (compile_figure_st [exC6df] 0 (.obj exC6raw)).1.get? 0 = [exC6df].get? 0 ∧
    (compile_figure_st [exC6df] 0 (.obj exC6raw)).2 =
      compile_figure ([exC6df].getD 0 default) (.obj exC6raw) ∧
    (compile_payload_st [exC6df] 0 (.obj exC6raw)).1.get? 0 = [exC6df].get? 0 ∧
    (compile_payload_st [exC6df] 0 (.obj exC6raw)).2 =
      compile_payload ([exC6df].getD 0 default) (.obj exC6raw) :=
  C8_no_input_mutation [exC6df] 0 (.obj exC6raw) (by decide)

/-! ## Claim C1 -/

theorem scatterWorkingFrame_cols (df : DataFrame) (x : Option String) :
    (scatterWorkingFrame df x).cols = df.cols := by
  unfold scatterWorkingFrame DataFrame.coerceFrame
  cases x with
  | none => rfl
  | some xc =>
      dsimp only
      split
      · split
        · rfl
        · rfl
      · rfl

theorem ensure_ok_contains {df : DataFrame} {cols : List String}
    (h : _ensure_columns df cols = .ok ()) :
    ∀ c ∈ cols, df.cols.contains c = true := by
  intro c hc
  unfold _ensure_columns at h
  dsimp only at h
  split at h
  · rename_i hemp
    by_contra hnc
    rw [Bool.not_eq_true] at hnc
    have hmem : c ∈ cols.filter (fun c => !df.cols.contains c) := by
      rw [List.mem_filter]
      exact ⟨hc, by rw [hnc]; rfl⟩
    rw [List.isEmpty_iff] at hemp
    rw [hemp] at hmem
    exact absurd hmem (List.not_mem_nil c)
  · exact Except.noConfusion h

theorem mem_boundCols_x {d : DataSpec} {xc : String} (h : d.x = some xc)
    (hne : xc.isEmpty = false) : xc ∈ boundCols d := by
  unfold boundCols
  rw [List.mem_filter, h]
  exact ⟨by simp, by rw [hne]; rfl⟩

theorem mem_boundCols_y_single {d : DataSpec} {yc : String}
    (h : d.y = some (.inl yc)) (hne : yc.isEmpty = false) :
    yc ∈ boundCols d := by
  unfold boundCols _listify
  rw [List.mem_filter, h]
  refine ⟨?_, by rw [hne]; rfl⟩
  simp

theorem mem_boundCols_text {d : DataSpec} {t : String} (h : d.text = some t)
    (hne : t.isEmpty = false) : t ∈ boundCols d := by
  unfold boundCols
  rw [List.mem_filter, h]
  refine ⟨?_, by rw [hne]; rfl⟩
  simp

/-- Value of the guarded access `df[c] if c else None` when it does not
raise. -/
def colTruthyVal (f : DataFrame) : Option String → Option (List Value)
  | none => none
  | some c => if c.isEmpty then none else some (f.col c)

theorem colTruthyE_ok {f : DataFrame} {c : Option String}
    (h : ∀ s, c = some s → s.isEmpty = false → f.cols.contains s = true) :
    f.colTruthyE c = .ok (colTruthyVal f c) := by
  cases c with
  | none => rfl
  | some s =>
      unfold DataFrame.colTruthyE colTruthyVal
      by_cases hse : s.isEmpty
      · simp [hse]
        rfl
      · have hne : s.isEmpty = false := by rwa [Bool.not_eq_true] at hse
        have hc := h s rfl hne
        have hmem : s ∈ f.cols := by
          simpa using hc
        simp [hse, DataFrame.colE, hc, hmem, Except.map]

theorem mapM_ok_map {a b : Type} (f : a → Except VizError b) (g : a → b)
    (l : List a) (h : ∀ x ∈ l, f x = .ok (g x)) :
    l.mapM f = .ok (l.map g) := by
  induction l with
  | nil => rfl
  | cons x t ih =>
      rw [List.mapM_cons, h x (List.mem_cons_self x t),
        ih (fun z hz => h z (List.mem_cons_of_mem x hz))]
      rfl

theorem applyOpacity_y (tr : Trace) (e : EncodingsSpec) :
    (applyOpacity tr e).y = tr.y := by
  unfold applyOpacity
  split <;> rfl

theorem applyMarkerSize_y (tr : Trace) (e : EncodingsSpec) :
    (applyMarkerSize tr e).y = tr.y := by
  unfold applyMarkerSize
  split
  · split <;> rfl
  · rfl

theorem applyLineShape_y (tr : Trace) (e : EncodingsSpec) :
    (applyLineShape tr e).y = tr.y := by
  unfold applyLineShape
  split
  · split <;> rfl
  · rfl

theorem applyColorBoth_y (tr : Trace) (c : String) :
    (applyColorBoth tr c).y = tr.y := by
  unfold applyColorBoth
  dsimp only
  split <;> split <;> rfl

theorem applyOpacity_name (tr : Trace) (e : EncodingsSpec) :
    (applyOpacity tr e).name = tr.name := by
  unfold applyOpacity
  split <;> rfl

theorem applyMarkerSize_name (tr : Trace) (e : EncodingsSpec) :
    (applyMarkerSize tr e).name = tr.name := by
  unfold applyMarkerSize
  split
  · split <;> rfl
  · rfl

theorem applyLineShape_name (tr : Trace) (e : EncodingsSpec) :
    (applyLineShape tr e).name = tr.name := by
  unfold applyLineShape
  split
  · split <;> rfl
  · rfl

theorem applyColorBoth_name (tr : Trace) (c : String) :
    (applyColorBoth tr c).name = tr.name := by
  unfold applyColorBoth
  dsimp only
  split <;> split <;> rfl

theorem apply_common_y (tr : Trace) (nk : String) (spec : VizSpec) :
    (_apply_common tr nk spec).y = tr.y := by
  unfold _apply_common
  dsimp only
  have h1 : ∀ t : Trace, (match spec.data.encodings with
      | none => t
      | some e => applyLineShape (applyMarkerSize (applyOpacity t e) e) e).y = t.y := by
    intro t
    split
    · rfl
    · rw [applyLineShape_y, applyMarkerSize_y, applyOpacity_y]
  split
  · split
    · split
      · exact h1 tr
      · rw [applyColorBoth_y]
        exact h1 tr
    · exact h1 tr
  · exact h1 tr

theorem apply_common_name (tr : Trace) (nk : String) (spec : VizSpec) :
    (_apply_common tr nk spec).name = tr.name := by
  unfold _apply_common
  dsimp only
  have h1 : ∀ t : Trace, (match spec.data.encodings with
      | none => t
      | some e => applyLineShape (applyMarkerSize (applyOpacity t e) e) e).name = t.name := by
    intro t
    split
    · rfl
    · rw [applyLineShape_name, applyMarkerSize_name, applyOpacity_name]
  split
  · split
    · split
      · exact h1 tr
      · rw [applyColorBoth_name]
        exact h1 tr
    · exact h1 tr
  · exact h1 tr

theorem route_axis_y (tr : Trace) (ycol : Option String) (spec : VizSpec) :
    (_route_axis tr ycol spec).y = tr.y := by
  unfold _route_axis
  dsimp only
  split <;> rfl

theorem route_axis_name (tr : Trace) (ycol : Option String) (spec : VizSpec) :
    (_route_axis tr ycol spec).name = tr.name := by
  unfold _route_axis
  dsimp only
  split <;> rfl

theorem seriesGroups_length (df : DataFrame) (c : String) :
    (seriesGroups df c).length = (firstUniques (df.col c)).length := by
  rw [seriesGroups, List.length_map, sortVals_length]

theorem seriesGroups_map_fst (df : DataFrame) (c : String) :
    (seriesGroups df c).map Prod.fst = sortVals (firstUniques (df.col c)) := by
  unfold seriesGroups
  induction (sortVals (firstUniques (df.col c))) with
  | nil => rfl
  | cons k t ih => simp [ih]

theorem seriesGroups_snd_cols {df : DataFrame} {c : String}
    {kg : Value × DataFrame} (h : kg ∈ seriesGroups df c) :
    kg.2.cols = df.cols := by
  rw [seriesGroups, List.mem_map] at h
  obtain ⟨k, -, hk⟩ := h
  rw [← hk]

theorem scatterSeriesTrace_ok (m : VizSpec) (yc : String)
    (kg : Value × DataFrame)
    (hy : m.data.y = some (.inl yc)) (hycne : yc.isEmpty = false)
    (hyc : kg.2.cols.contains yc = true)
    (hx : ∀ s, m.data.x = some s → s.isEmpty = false →
      kg.2.cols.contains s = true)
    (ht : ∀ s, m.data.text = some s → s.isEmpty = false →
      kg.2.cols.contains s = true) :
    scatterSeriesTrace m kg = .ok
      (_route_axis (_apply_common
        { kind := .scatter, x := colTruthyVal kg.2 m.data.x,
          y := some (kg.2.col yc), mode := some (scatterMode m),
          name := some (_label_series m kg.1 (_label_y m (some yc))),
          text := colTruthyVal kg.2 m.data.text,
          fill := scatterFill m, stackgroup := scatterStackgroup m }
        kg.1.toStr m) (some yc) m) := by
  have h0 : ySubscriptZero m.data.y = .ok (some yc) := by
    rw [hy]
    rfl
  have h1 : kg.2.colTruthyE m.data.x = .ok (colTruthyVal kg.2 m.data.x) :=
    colTruthyE_ok hx
  have h2 : kg.2.colTruthyE (some yc) = .ok (some (kg.2.col yc)) := by
    rw [@colTruthyE_ok kg.2 (some yc)
      (fun s hs _ => by cases hs; exact hyc)]
    simp [colTruthyVal, hycne]
  have h3 : kg.2.colTruthyE m.data.text = .ok (colTruthyVal kg.2 m.data.text) :=
    colTruthyE_ok ht
  unfold scatterSeriesTrace
  try dsimp only
  rw [h0]
  try simp only [except_ok_bind, except_ok_bindb]
  rw [h1]
  try simp only [except_ok_bind, except_ok_bindb]
  rw [h2]
  try simp only [except_ok_bind, except_ok_bindb]
  rw [h3]
  try simp only [except_ok_bind, except_ok_bindb]
  try rfl

theorem barSeriesTrace_ok (m : VizSpec) (yc xc : String)
    (kg : Value × DataFrame)
    (hver : barOrient m = "v")
    (hyc : kg.2.cols.contains yc = true)
    (hxc : m.data.x = some xc) (hxcont : kg.2.cols.contains xc = true)
    (ht : ∀ s, m.data.text = some s → s.isEmpty = false →
      kg.2.cols.contains s = true) :
    barSeriesTrace m yc kg = .ok
      (_route_axis (_apply_common
        { kind := .bar, x := some (kg.2.col xc),
          y := some (kg.2.col yc),
          name := some (_label_series m kg.1 (_label_y m (some yc))),
          text := colTruthyVal kg.2 m.data.text }
        kg.1.toStr m) (some yc) m) := by
  have hxmem : xc ∈ kg.2.cols := by simpa using hxcont
  have hymem : yc ∈ kg.2.cols := by simpa using hyc
  have hx1 : kg.2.colOptE m.data.x = .ok (kg.2.col xc) := by
    rw [hxc]
    simp [DataFrame.colOptE, DataFrame.colE, hxmem]
  have hy1 : kg.2.colE yc = .ok (kg.2.col yc) := by
    simp [DataFrame.colE, hymem]
  have h3 : kg.2.colTruthyE m.data.text = .ok (colTruthyVal kg.2 m.data.text) :=
    colTruthyE_ok ht
  unfold barSeriesTrace
  try dsimp only
  rw [if_pos hver]
  try dsimp only
  rw [hx1]
  try simp only [except_ok_bind, except_ok_bindb]
  rw [hy1]
  try simp only [except_ok_bind, except_ok_bindb]
  rw [h3]
  try simp only [except_ok_bind, except_ok_bindb]
  try rfl

theorem map_ext_law {a b : Type} (f g : a → b) (l : List a)
    (h : ∀ x, f x = g x) : l.map f = l.map g := by
  induction l with
  | nil => rfl
  | cons x t ih => simp only [List.map_cons, h x, ih]

/-- The frame whose rows the series grouper partitions: for the scatter
family this is the private working frame after the advisory x date
coercion, for bar it is the caller's frame unchanged. -/
def seriesFrame (df : DataFrame) (m : VizSpec) : DataFrame :=
  if m.chart.type = .bar then df else scatterWorkingFrame df m.data.x

/-- C1 counterexample: the claim says trace order matches the
first-occurrence order of the distinct group-by values.  pandas `groupby`
defaults to `sort=True`: the group column here is seen in order
`b, a`, yet the compiled traces come out in ascending key order
`a, b` (names fall back to the raw keys), with the `a`-trace carrying the
`a`-rows and the `b`-trace the `b`-rows. -/
theorem C1_counterexample :
    (compile_figure exC1df (.obj exC1raw)).map
        (fun f => (f.traces.map Trace.name, f.traces.map Trace.y)) =
      .ok ([some "a", some "b"],
           [some [.vStr "2"], some [.vStr "1", .vStr "3"]]) ∧
    firstUniques (exC1df.col "g") = [.vStr "b", .vStr "a"] := by decide

/-- C1 (amended): for the scatter family (line/scatter/area, any x) and
for vertical bar charts (x bound and present), a spec with a single y
column and `series.by` naming a present column compiles to exactly one
trace per distinct value of the group column — but in ascending sorted
key order (pandas `groupby(sort=True)`), not first-occurrence order —
each trace carrying exactly its group's rows in their original relative
order (the group frame is the row filter of the working frame, which
preserves order). -/
theorem C1_series_split (df : DataFrame) (m : VizSpec) (gc yc : String)
    (hty : (m.chart.type = .line ∨ m.chart.type = .scatter ∨
            m.chart.type = .area) ∨
           (m.chart.type = .bar ∧ barOrient m = "v" ∧
            ∃ xc, m.data.x = some xc ∧ df.cols.contains xc = true))
    (hy : m.data.y = some (.inl yc))
    (hby : m.data.seriesBy = some gc)
    (hycne : yc.isEmpty = false)
    (hens : _ensure_columns df (boundCols m.data) = .ok ())
    (hgc : df.cols.contains gc = true)
    (hk : (firstUniques ((seriesFrame df m).col gc)).length ≤ 64) :
    ∃ fig, compile_figure df (.model m) = .ok fig ∧
      fig.traces.length = (firstUniques ((seriesFrame df m).col gc)).length ∧
      List.Sorted vleP (sortVals (firstUniques ((seriesFrame df m).col gc))) ∧
      (sortVals (firstUniques ((seriesFrame df m).col gc))).Perm
        (firstUniques ((seriesFrame df m).col gc)) ∧
      fig.traces.map Trace.y =
        (sortVals (firstUniques ((seriesFrame df m).col gc))).map
          (fun k => some ((DataFrame.mk (seriesFrame df m).cols
            ((seriesFrame df m).rows.filter
              (fun r => decide ((seriesFrame df m).cell r gc = k)))).col yc)) ∧
      fig.traces.map Trace.name =
        (sortVals (firstUniques ((seriesFrame df m).col gc))).map
          (fun k => some (_label_series m k (_label_y m (some yc)))) := by
  have hcont := ensure_ok_contains hens
  rcases hty with hsc | ⟨hbar, hver, xc, hxc, hxcont⟩
  · -- scatter family
    have hnotbar : ¬m.chart.type = ChartType.bar := by
      rcases hsc with h | h | h <;> rw [h] <;> intro hc <;> exact ChartType.noConfusion hc
    have hsf : seriesFrame df m = scatterWorkingFrame df m.data.x := by
      unfold seriesFrame
      rw [if_neg hnotbar]
    rw [hsf] at hk ⊢
    have hwfcols : (scatterWorkingFrame df m.data.x).cols = df.cols :=
      scatterWorkingFrame_cols df m.data.x
    have hgc' : (scatterWorkingFrame df m.data.x).cols.contains gc = true := by
      rw [hwfcols]; exact hgc
    have htextc : ∀ s, m.data.text = some s → s.isEmpty = false →
        (scatterWorkingFrame df m.data.x).cols.contains s = true := by
      intro s hs hne
      rw [hwfcols]
      exact hcont s (mem_boundCols_text hs hne)
    have hF : ∀ kg ∈ seriesGroups (scatterWorkingFrame df m.data.x) gc,
        scatterSeriesTrace m kg = .ok
          (_route_axis (_apply_common
            { kind := .scatter, x := colTruthyVal kg.2 m.data.x,
              y := some (kg.2.col yc), mode := some (scatterMode m),
              name := some (_label_series m kg.1 (_label_y m (some yc))),
              text := colTruthyVal kg.2 m.data.text,
              fill := scatterFill m, stackgroup := scatterStackgroup m }
            kg.1.toStr m) (some yc) m) := by
      intro kg hkg
      have hcols : kg.2.cols = df.cols := by
        rw [seriesGroups_snd_cols hkg, hwfcols]
      refine scatterSeriesTrace_ok m yc kg hy hycne ?_ ?_ ?_
      · rw [hcols]
        exact hcont yc (mem_boundCols_y_single hy hycne)
      · intro s hs hne
        rw [hcols]
        exact hcont s (mem_boundCols_x hs hne)
      · intro s hs hne
        rw [hcols]
        exact hcont s (mem_boundCols_text hs hne)
    have harm : _add_scatter_family df m = .ok
        ((seriesGroups (scatterWorkingFrame df m.data.x) gc).map
          (fun kg =>
            _route_axis (_apply_common
              { kind := .scatter, x := colTruthyVal kg.2 m.data.x,
                y := some (kg.2.col yc), mode := some (scatterMode m),
                name := some (_label_series m kg.1 (_label_y m (some yc))),
                text := colTruthyVal kg.2 m.data.text,
                fill := scatterFill m, stackgroup := scatterStackgroup m }
              kg.1.toStr m) (some yc) m)) := by
      unfold _add_scatter_family
      try dsimp only
      rw [colTruthyE_ok htextc]
      try simp only [except_ok_bind, except_ok_bindb]
      rw [hy, hby]
      try dsimp only
      rw [if_pos hgc']
      exact mapM_ok_map _ _ _ hF
    have hbt : buildTraces df m = _add_scatter_family df m := by
      unfold buildTraces
      rcases hsc with h | h | h <;> rw [h]
    have hlen : ((seriesGroups (scatterWorkingFrame df m.data.x) gc).map
        (fun kg =>
          _route_axis (_apply_common
            { kind := .scatter, x := colTruthyVal kg.2 m.data.x,
              y := some (kg.2.col yc), mode := some (scatterMode m),
              name := some (_label_series m kg.1 (_label_y m (some yc))),
              text := colTruthyVal kg.2 m.data.text,
              fill := scatterFill m, stackgroup := scatterStackgroup m }
            kg.1.toStr m) (some yc) m)).length =
        (firstUniques ((scatterWorkingFrame df m.data.x).col gc)).length := by
      rw [List.length_map, seriesGroups_length]
    have hguard : _guard_traces
        ((seriesGroups (scatterWorkingFrame df m.data.x) gc).map
          (fun kg =>
            _route_axis (_apply_common
              { kind := .scatter, x := colTruthyVal kg.2 m.data.x,
                y := some (kg.2.col yc), mode := some (scatterMode m),
                name := some (_label_series m kg.1 (_label_y m (some yc))),
                text := colTruthyVal kg.2 m.data.text,
                fill := scatterFill m, stackgroup := scatterStackgroup m }
              kg.1.toStr m) (some yc) m)) 64 = .ok () := by
      unfold _guard_traces
      rw [if_neg (by rw [hlen]; omega)]
    have hcomp : compile_figure df (.model m) = .ok
        ⟨(seriesGroups (scatterWorkingFrame df m.data.x) gc).map
          (fun kg =>
            _route_axis (_apply_common
              { kind := .scatter, x := colTruthyVal kg.2 m.data.x,
                y := some (kg.2.col yc), mode := some (scatterMode m),
                name := some (_label_series m kg.1 (_label_y m (some yc))),
                text := colTruthyVal kg.2 m.data.text,
                fill := scatterFill m, stackgroup := scatterStackgroup m }
              kg.1.toStr m) (some yc) m),
         buildLayout m⟩ := by
      rw [compile_figure_model]
      unfold compileModel
      rw [hens]
      try dsimp only
      rw [hbt, harm]
      try dsimp only
      rw [hguard]
    refine ⟨_, hcomp, ?_, sortVals_sorted _, sortVals_perm _, ?_, ?_⟩
    · exact hlen
    · rw [seriesGroups, List.map_map, List.map_map]
      apply map_ext_law
      intro k
      dsimp only [Function.comp]
      rw [route_axis_y, apply_common_y]
    · rw [seriesGroups, List.map_map, List.map_map]
      apply map_ext_law
      intro k
      dsimp only [Function.comp]
      rw [route_axis_name, apply_common_name]
  · -- vertical bar
    have hsf : seriesFrame df m = df := by
      unfold seriesFrame
      rw [if_pos hbar]
    rw [hsf] at hk ⊢
    have hF : ∀ kg ∈ seriesGroups df gc,
        barSeriesTrace m yc kg = .ok
          (_route_axis (_apply_common
            { kind := .bar, x := some (kg.2.col xc),
              y := some (kg.2.col yc),
              name := some (_label_series m kg.1 (_label_y m (some yc))),
              text := colTruthyVal kg.2 m.data.text }
            kg.1.toStr m) (some yc) m) := by
      intro kg hkg
      have hcols : kg.2.cols = df.cols := seriesGroups_snd_cols hkg
      refine barSeriesTrace_ok m yc xc kg hver ?_ hxc ?_ ?_
      · rw [hcols]
        exact hcont yc (mem_boundCols_y_single hy hycne)
      · rw [hcols]
        exact hxcont
      · intro s hs hne
        rw [hcols]
        exact hcont s (mem_boundCols_text hs hne)
    have htextc : ∀ s, m.data.text = some s → s.isEmpty = false →
        df.cols.contains s = true := by
      intro s hs hne
      exact hcont s (mem_boundCols_text hs hne)
    have harm : _add_bar df m = .ok
        ((seriesGroups df gc).map
          (fun kg =>
            _route_axis (_apply_common
              { kind := .bar, x := some (kg.2.col xc),
                y := some (kg.2.col yc),
                name := some (_label_series m kg.1 (_label_y m (some yc))),
                text := colTruthyVal kg.2 m.data.text }
              kg.1.toStr m) (some yc) m)) := by
      unfold _add_bar
      try dsimp only
      rw [colTruthyE_ok htextc]
      try simp only [except_ok_bind, except_ok_bindb]
      rw [hy, hby]
      try dsimp only
      rw [show barYcol (some (.inl yc) : Option YField) = Except.ok yc from rfl]
      try simp only [except_ok_bind, except_ok_bindb]
      rw [if_pos hgc]
      exact mapM_ok_map _ _ _ hF
    have hbt : buildTraces df m = _add_bar df m := by
      unfold buildTraces
      rw [hbar]
    have hlen : ((seriesGroups df gc).map
        (fun kg =>
          _route_axis (_apply_common
            { kind := .bar, x := some (kg.2.col xc),
              y := some (kg.2.col yc),
              name := some (_label_series m kg.1 (_label_y m (some yc))),
              text := colTruthyVal kg.2 m.data.text }
            kg.1.toStr m) (some yc) m)).length =
        (firstUniques (df.col gc)).length := by
      rw [List.length_map, seriesGroups_length]
    have hguard : _guard_traces
        ((seriesGroups df gc).map
          (fun kg =>
            _route_axis (_apply_common
              { kind := .bar, x := some (kg.2.col xc),
                y := some (kg.2.col yc),
                name := some (_label_series m kg.1 (_label_y m (some yc))),
                text := colTruthyVal kg.2 m.data.text }
              kg.1.toStr m) (some yc) m)) 64 = .ok () := by
      unfold _guard_traces
      rw [if_neg (by rw [hlen]; omega)]
    have hcomp : compile_figure df (.model m) = .ok
        ⟨(seriesGroups df gc).map
          (fun kg =>
            _route_axis (_apply_common
              { kind := .bar, x := some (kg.2.col xc),
                y := some (kg.2.col yc),
                name := some (_label_series m kg.1 (_label_y m (some yc))),
                text := colTruthyVal kg.2 m.data.text }
              kg.1.toStr m) (some yc) m),
         buildLayout m⟩ := by
      rw [compile_figure_model]
      unfold compileModel
      rw [hens]
      try dsimp only
      rw [hbt, harm]
      try dsimp only
      rw [hguard]
    refine ⟨_, hcomp, ?_, sortVals_sorted _, sortVals_perm _, ?_, ?_⟩
    · exact hlen
    · rw [seriesGroups, List.map_map, List.map_map]
      apply map_ext_law
      intro k
      dsimp only [Function.comp]
      rw [route_axis_y, apply_common_y]
    · rw [seriesGroups, List.map_map, List.map_map]
      apply map_ext_law
      intro k
      dsimp only [Function.comp]
      rw [route_axis_name, apply_common_name]

def exC1m : VizSpec :=
  ⟨"1.0", ⟨.line, some .lines, none, none, none⟩,
   ⟨none, none, some (.inl "v"), none, none, none, some ⟨some "g"⟩, none,
    none, none, none⟩,
   none, none⟩

/-- C1 witness: the amended theorem applied at the concrete line spec and
table of the counterexample (group column `g` with values `b, a, b`). -/
theorem C1_series_split_witness :
    ∃ fig, compile_figure exC1df (.model exC1m) = .ok fig ∧
      fig.traces.length =
        (firstUniques ((seriesFrame exC1df exC1m).col "g")).length ∧
      List.Sorted vleP
        (sortVals (firstUniques ((seriesFrame exC1df exC1m).col "g"))) ∧
      (sortVals (firstUniques ((seriesFrame exC1df exC1m).col "g"))).Perm
        (firstUniques ((seriesFrame exC1df exC1m).col "g")) ∧
      fig.traces.map Trace.y =
        (sortVals (firstUniques ((seriesFrame exC1df exC1m).col "g"))).map
          (fun k => some ((DataFrame.mk (seriesFrame exC1df exC1m).cols
            ((seriesFrame exC1df exC1m).rows.filter
              (fun r => decide ((seriesFrame exC1df exC1m).cell r "g" = k)))).col "v")) ∧
      fig.traces.map Trace.name =
        (sortVals (firstUniques ((seriesFrame exC1df exC1m).col "g"))).map
          (fun k => some (_label_series exC1m k (_label_y exC1m (some "v")))) :=
  C1_series_split exC1df exC1m "g" "v" (Or.inl (Or.inl rfl)) rfl (by decide)
    (by decide) (by decide) (by decide) (by decide)

/-! ## Claim C7 -/

theorem parseVersion_ok_eq {ro : RawOpt String} {s : String}
    (h : parseVersion ro = .ok s) : s = "1.0" := by
  cases ro with
  | absent => exact (Except.ok.inj h).symm
  | null => exact Except.noConfusion h
  | val t =>
      simp only [parseVersion] at h
      split at h
      · rename_i ht
        cases h
        exact ht
      · exact Except.noConfusion h

theorem parseVersion_roundtrip {ro : RawOpt String} {s : String}
    (h : parseVersion ro = .ok s) : parseVersion (.val s) = .ok s := by
  have hs := parseVersion_ok_eq h
  subst hs
  rfl

theorem chart_norm_idem (c : ChartSpec) :
    ChartSpec._defaults_and_semantics (ChartSpec._defaults_and_semantics c) =
      ChartSpec._defaults_and_semantics c := by
  obtain ⟨ty, mo, orn, bm, hn⟩ := c
  cases ty <;> cases mo <;> rfl

theorem validateColorMap_ok (v : Option (List (String × String))) :
    validateColorMap v = .ok v := by
  cases v with
  | none => rfl
  | some l =>
      have hf : l.find? (fun kc => !_valid_color kc.2) = none := by
        simp [List.find?_eq_none, _valid_color]
      simp [validateColorMap, hf]

theorem validateColorway_ok (v : Option (List String)) :
    validateColorway v = .ok v := by
  cases v with
  | none => rfl
  | some l =>
      have hf : l.find? (fun c => !_valid_color c) = none := by
        simp [List.find?_eq_none, _valid_color]
      simp [validateColorway, hf]

theorem parseIntField_roundtrip {p : List String} {dflt lo hi : Int}
    {ro : RawOpt Int} {o : Option Int}
    (hd : lo ≤ dflt ∧ dflt ≤ hi)
    (h : parseIntField p dflt lo hi ro = .ok o) :
    parseIntField p dflt lo hi (.ofOpt o) = .ok o := by
  cases ro with
  | absent =>
      cases h
      simp [parseIntField, RawOpt.ofOpt, hd.1, hd.2]
  | null =>
      cases h
      rfl
  | val v =>
      simp only [parseIntField] at h
      split at h
      · rename_i hr
        cases h
        simp [parseIntField, RawOpt.ofOpt, hr.1, hr.2]
      · exact Except.noConfusion h

theorem parseRatField_roundtrip {p : List String} {dflt lo hi : Rat}
    {ro : RawOpt Rat} {o : Option Rat}
    (hd : lo ≤ dflt ∧ dflt ≤ hi)
    (h : parseRatField p dflt lo hi ro = .ok o) :
    parseRatField p dflt lo hi (.ofOpt o) = .ok o := by
  cases ro with
  | absent =>
      cases h
      simp [parseRatField, RawOpt.ofOpt, hd.1, hd.2]
  | null =>
      cases h
      rfl
  | val v =>
      simp only [parseRatField] at h
      split at h
      · rename_i hr
        cases h
        simp [parseRatField, RawOpt.ofOpt, hr.1, hr.2]
      · exact Except.noConfusion h

theorem parseIntFieldNoDflt_roundtrip {p : List String} {lo hi : Int}
    {w : Option Int} {o : Option Int}
    (h : parseIntFieldNoDflt p lo hi w = .ok o) :
    parseIntFieldNoDflt p lo hi o = .ok o := by
  cases w with
  | none =>
      cases h
      rfl
  | some v =>
      simp only [parseIntFieldNoDflt] at h
      split at h
      · rename_i hr
        cases h
        simp [parseIntFieldNoDflt, hr.1, hr.2]
      · exact Except.noConfusion h

theorem parseBoolField_roundtrip {p : List String} {dflt : Bool}
    {ro : RawOpt Bool} {b : Bool}
    (h : parseBoolField p dflt ro = .ok b) :
    parseBoolField p dflt (.val b) = .ok b := rfl

theorem parseEncodings_roundtrip {r : RawEncodings} {e : EncodingsSpec}
    (h : parseEncodings r = .ok e) :
    parseEncodings (EncodingsSpec.toRaw e) = .ok e := by
  unfold parseEncodings at h
  split at h
  · exact Except.noConfusion h
  · exact Except.noConfusion h
  · rename_i ms op hms hop
    cases h
    have h1 := parseIntField_roundtrip
      (show (1 : Int) ≤ 6 ∧ (6 : Int) ≤ 64 by decide) hms
    have h2 := parseRatField_roundtrip
      (show (0 : Rat) ≤ mkRat 9 10 ∧ mkRat 9 10 ≤ 1 by decide) hop
    unfold parseEncodings
    dsimp only [EncodingsSpec.toRaw]
    rw [h1, h2]

theorem parseLayout_roundtrip {r : RawLayout} {l : LayoutSpec}
    (h : parseLayout r = .ok l) :
    parseLayout (LayoutSpec.toRaw l) = .ok l := by
  unfold parseLayout at h
  split at h
  · exact Except.noConfusion h
  · exact Except.noConfusion h
  · exact Except.noConfusion h
  · rename_i cw ht wd hcw hh hw
    cases h
    have h2 := parseIntField_roundtrip
      (show (200 : Int) ≤ 450 ∧ (450 : Int) ≤ 2000 by decide) hh
    have h3 := parseIntFieldNoDflt_roundtrip hw
    unfold parseLayout
    dsimp only [LayoutSpec.toRaw]
    rw [validateColorway_ok, h2, h3]

theorem parsePlotlyConfig_roundtrip {r : RawPlotlyJSConfig} {c : PlotlyJSConfig}
    (h : parsePlotlyConfig r = .ok c) :
    parsePlotlyConfig (PlotlyJSConfig.toRaw c) = .ok c := by
  unfold parsePlotlyConfig at h
  split at h
  · exact Except.noConfusion h
  · exact Except.noConfusion h
  · exact Except.noConfusion h
  · exact Except.noConfusion h
  · rename_i a b c' d ha hb hc hd
    cases h
    rfl

theorem parseEncodingsOpt_roundtrip {o : Option RawEncodings}
    {eo : Option EncodingsSpec} (h : parseEncodingsOpt o = .ok eo) :
    parseEncodingsOpt (eo.map EncodingsSpec.toRaw) = .ok eo := by
  cases o with
  | none =>
      cases h
      rfl
  | some e0 =>
      simp only [parseEncodingsOpt] at h
      cases he : parseEncodings e0 with
      | error f =>
          rw [he] at h
          exact Except.noConfusion h
      | ok v =>
          rw [he] at h
          simp only [Except.map] at h
          cases h
          simp only [Option.map, parseEncodingsOpt]
          rw [parseEncodings_roundtrip he]
          rfl

theorem parseLayoutOpt_roundtrip {o : Option RawLayout}
    {lo : Option LayoutSpec} (h : parseLayoutOpt o = .ok lo) :
    parseLayoutOpt (lo.map LayoutSpec.toRaw) = .ok lo := by
  cases o with
  | none =>
      cases h
      rfl
  | some l0 =>
      simp only [parseLayoutOpt] at h
      cases he : parseLayout l0 with
      | error f =>
          rw [he] at h
          exact Except.noConfusion h
      | ok v =>
          rw [he] at h
          simp only [Except.map] at h
          cases h
          simp only [Option.map, parseLayoutOpt]
          rw [parseLayout_roundtrip he]
          rfl

theorem parsePlotlyConfigOpt_roundtrip {o : Option RawPlotlyJSConfig}
    {co : Option PlotlyJSConfig} (h : parsePlotlyConfigOpt o = .ok co) :
    parsePlotlyConfigOpt (co.map PlotlyJSConfig.toRaw) = .ok co := by
  cases o with
  | none =>
      cases h
      rfl
  | some c0 =>
      simp only [parsePlotlyConfigOpt] at h
      cases he : parsePlotlyConfig c0 with
      | error f =>
          rw [he] at h
          exact Except.noConfusion h
      | ok v =>
          rw [he] at h
          simp only [Except.map] at h
          cases h
          simp only [Option.map, parsePlotlyConfigOpt]
          rw [parsePlotlyConfig_roundtrip he]
          rfl

theorem parseDataSpec_roundtrip {r : RawDataSpec} {d : DataSpec}
    (h : parseDataSpec r = .ok d) :
    parseDataSpec (DataSpec.toRaw d) = .ok d := by
  obtain ⟨fn, x0, y0, z0, t0, n0, s0, a0, e0, l0, c0⟩ := r
  unfold parseDataSpec at h
  split at h
  · exact Except.noConfusion h
  · exact Except.noConfusion h
  · exact Except.noConfusion h
  · rename_i y cm enc hy hcm henc
    cases h
    have he := validateYField_ok_eq hy
    subst he
    have henc2 := parseEncodingsOpt_roundtrip henc
    unfold parseDataSpec
    dsimp only [DataSpec.toRaw]
    rw [hy, validateColorMap_ok, henc2]
    cases c0 <;> rfl

theorem parseRawSpec_roundtrip {r : RawVizSpec} {m : VizSpec}
    (h : parseRawSpec r = .ok m) :
    parseRawSpec (VizSpec.toRaw m) = .ok m := by
  obtain ⟨hver, hchart, hdata, hlay, hcfg, hsem⟩ := parseRawSpec_ok_parts h
  unfold parseRawSpec
  dsimp only [VizSpec.toRaw]
  rw [parseVersion_roundtrip hver, parseDataSpec_roundtrip hdata,
      parseLayoutOpt_roundtrip hlay, parsePlotlyConfigOpt_roundtrip hcfg]
  dsimp only
  have hci : ChartSpec._defaults_and_semantics m.chart = m.chart := by
    rw [hchart]
    exact chart_norm_idem r.chart
  rw [hci]
  rw [show (⟨m.version, m.chart, m.data, m.layout, m.plotly_config⟩ : VizSpec) = m from rfl]
  rw [hsem]

/-- A concrete spec exercising the normalization steps: absent version,
line chart without a mode, encodings with absent marker_size/opacity,
layout with absent height, config with mixed absent/explicit booleans. -/
def exC7raw : RawVizSpec :=
  ⟨.absent, ⟨.line, none, none, none, none⟩,
   ⟨none, some "d", some (.inl "v"), none, none, none, none, none,
    some ⟨.absent, .absent, some .spline⟩, none, some ⟨some [("k", "#aabbcc")]⟩⟩,
   some ⟨some "T", none, none, none, none, none, some ["#fff"], none, .absent, some 300⟩,
   some ⟨.absent, .val false, .absent, .absent, none⟩⟩

/-- The validated model produced from `exC7raw`: every default filled in. -/
def exC7m : VizSpec :=
  ⟨"1.0", ⟨.line, some .lines, none, none, none⟩,
   ⟨none, some "d", some (.inl "v"), none, none, none, none, none,
    some ⟨some 6, some (mkRat 9 10), some .spline⟩, none, some ⟨some [("k", "#aabbcc")]⟩⟩,
   some ⟨some "T", none, none, none, none, none, some ["#fff"], none, some 450, some 300⟩,
   some ⟨true, false, false, false, none⟩⟩

/-- C7: validation/normalization is idempotent.  Any `VizSpec` obtained
from a successful `parse_viz_spec` run is a fixed point of the pipeline:
re-parsing its canonical serialized form (`VizSpec.toRaw`, the decoded
`model.json()` output) succeeds and returns the identical model — mode
defaulting for line/area, orientation/histnorm resets, the `version`
constant and every numeric/boolean field default do not change an
already-validated spec, and the root semantic checks pass again. -/
theorem C7_validation_idempotent (r : RawVizSpec) (m : VizSpec)
    (h : parse_viz_spec (.obj r) = .ok m) :
    parse_viz_spec (.jsonStr (some (VizSpec.toRaw m))) = .ok m :=
  parseRawSpec_roundtrip (show parseRawSpec r = .ok m from h)

theorem C7_validation_idempotent_witness :
    parse_viz_spec (.obj exC7raw) = .ok exC7m ∧
      parse_viz_spec (.jsonStr (some (VizSpec.toRaw exC7m))) = .ok exC7m :=
  ⟨by decide, C7_validation_idempotent exC7raw exC7m (by decide)⟩

end VizEng
